import Mathlib

/-!
Verification development for the TimelineProfiler event-recording engine
(`src/Profiler.h` / `src/Profiler.cpp`).

The C++ code is shallowly embedded: each member function of `Profiler` /
`GPUProfiler` becomes a Lean function on an explicit state record.  Machine
integers are modelled as `Nat` with explicit reductions modulo `2^w` exactly
where the C++ code truncates (bit-fields, `uint32`/`uint64` wrap-around).
`gAssert` failures are modelled as fatal (the spec classifies them as
non-recoverable usage errors), so state-transforming operations that contain
asserts return `Option`; `none` is the assert/report path.  Out-of-bounds
vector accesses (undefined behaviour in C++) are likewise mapped to `none`.

External collaborators are modelled as explicit inputs: the hardware tick
counter (`QueryPerformanceCounter`) becomes a `now : Nat` argument, swapchain
statistics become argument values, GPU fence completion values and resolved
query readback data become arguments/fields filled in by the environment.
The scratch string allocator only copies bytes so that recorded names outlive
the caller; since strings are values in the embedding, it is the identity and
is not modelled.  The `Color` field of `ProfilerEvent` is computed through
floating-point HSV conversion (`HSV2RGB`); floating point is outside the
embedding and no claim concerns colors, so that field is omitted.
-/

namespace TLP

/-- `2^64`, the modulus of C++ `uint64` arithmetic. -/
def U64 : Nat := 2 ^ 64

/-- `2^32`, the modulus of C++ `uint32` arithmetic. -/
def U32 : Nat := 2 ^ 32

/-- Mirrors `ProfilerEvent` (Profiler.h).  Bit-field widths: `Depth : 8`,
`LineNumber : 18`, `ThreadIndex : 10`, `QueueIndex : 4`; stores reduce
modulo the width.  The float-computed 24-bit `Color` field is omitted. -/
structure ProfilerEvent where
  pName : String := ""
  pFilePath : String := ""
  depth : Nat := 0
  lineNumber : Nat := 0
  threadIndex : Nat := 0
  queueIndex : Nat := 0
  ticksBegin : Nat := 0
  ticksEnd : Nat := 0
deriving Repr, DecidableEq

/-- `ProfilerEvent::IsValid`. -/
def ProfilerEvent.isValid (e : ProfilerEvent) : Bool :=
  e.ticksBegin != 0 && e.ticksEnd != 0

/-- `Profiler::EventTrack::EType`. -/
inductive ETrackType where
  | CPU
  | GPU
  | Present
deriving Repr, DecidableEq

/-- `FixedArray<T, 32>::Push` (Profiler.h): `Length++` then
`gAssert(Length < N)`, so a push producing length `≥ 32` is the fatal
assert path.  The stack is modelled top-first. -/
def stackPush32 {α : Type} (x : α) (s : List α) : Option (List α) :=
  if s.length + 1 < 32 then some (x :: s) else none

/-- Mirrors `Profiler::EventTrack`: stable index, per-frame ring of event
buffers (`Events`, `historySize` deep) and the recording depth stack
(`FixedArray<uint32, MAX_STACK_DEPTH=32>`, top-first here). -/
structure EventTrack where
  name : String := ""
  id : Nat := 0
  index : Nat := 0
  type : ETrackType := .CPU
  eventStack : List Nat := []
  events : List (List ProfilerEvent) := []
deriving Repr, DecidableEq

/-- `EventTrack::GetFrameData`: `Events[frameIndex % Events.size()]`. -/
def EventTrack.getFrameData (t : EventTrack) (frameIndex : Nat) : List ProfilerEvent :=
  t.events.getD (frameIndex % t.events.length) []

/-- Writing back through the reference returned by `GetFrameData`. -/
def EventTrack.setFrameData (t : EventTrack) (frameIndex : Nat)
    (d : List ProfilerEvent) : EventTrack :=
  { t with events := t.events.set (frameIndex % t.events.length) d }

/-- `Profiler::PresentEntry::sQPCDroppedFrame` (`~0ull`). -/
def sQPCDroppedFrame : Nat := U64 - 1

/-- `Profiler::PresentEntry::sQPCMissedFrame` (`~0ull - 1`). -/
def sQPCMissedFrame : Nat := U64 - 2

/-- Mirrors `Profiler::PresentEntry`.  Default member values are those of the
C++ struct (`PresentID = ~0u`). -/
structure PresentEntry where
  presentQPC : Nat := sQPCDroppedFrame
  displayQPC : Nat := sQPCDroppedFrame
  presentID : Nat := U32 - 1
  frameIndex : Nat := 0
deriving Repr, DecidableEq

/-- State of the CPU profiler (`class Profiler`).  The modelled program has a
single instrumented thread, so the `thread_local` track index becomes the
field `curThreadTrack` (`-1`, i.e. unregistered, is `none`). -/
structure CPUState where
  isInitialized : Bool := false
  paused : Bool := false
  queuedPaused : Bool := false
  frameIndex : Nat := 0
  historySize : Nat := 0
  msToTicks : Nat := 0
  tracks : List EventTrack := []
  beginFrameTicks : List Nat := []
  curThreadTrack : Option Nat := none
  pPresentSwapChain : Option Nat := none
  presentTrackIndex : Option Nat := none
  presentQueue : List PresentEntry := List.replicate 32 {}
  lastQueuedPresentID : Nat := 0
  lastQueriedPresentID : Nat := 0
  lastProcessedValidPresentID : Nat := 0
  lastSyncRefreshCount : Nat := 0
  lastProcessedPresentID : Nat := 0
deriving Repr, DecidableEq

/-- `Profiler::Initialize(historySize)`.  `m_MsToTicks = frequency / 1000`
with `frequency` from `QueryPerformanceFrequency`, passed here as input. -/
def cpuInit (historySize tickFrequency : Nat) (s : CPUState) : CPUState :=
  { s with
    historySize := historySize
    isInitialized := true
    beginFrameTicks := List.replicate historySize 0
    msToTicks := tickFrequency / 1000 }

/-- `Profiler::RegisterTrack`: appends a track whose `Index` is the previous
track count and whose event ring is `historySize` empty frame buffers;
returns the new index. -/
def registerTrack (name : String) (type : ETrackType) (id : Nat) (s : CPUState) :
    Nat × CPUState :=
  let track : EventTrack :=
    { name := name
      id := id
      index := s.tracks.length
      type := type
      eventStack := []
      events := List.replicate s.historySize [] }
  (s.tracks.length, { s with tracks := s.tracks ++ [track] })

/-- `Profiler::RegisterCurrentThread` for the modelled thread:
lazily registers a CPU track (name resolved from `GetThreadDescription`
when absent, passed as input), or renames the existing one. -/
def registerCurrentThread (name : String) (threadId : Nat) (s : CPUState) :
    Nat × CPUState :=
  match s.curThreadTrack with
  | none =>
    let (idx, s') := registerTrack name .CPU threadId s
    (idx, { s' with curThreadTrack := some idx })
  | some idx =>
    (idx, { s with tracks := s.tracks.modify (fun (t : EventTrack) => { t with name := name }) idx })

/-- `Profiler::GetCurrentThreadTrack`: auto-registers the thread on first
use (`RegisterCurrentThread()` with the OS-provided name, modelled as `""`
and thread id `0`). -/
def getThreadTrack (s : CPUState) : Nat × CPUState :=
  match s.curThreadTrack with
  | some idx => (idx, s)
  | none => registerCurrentThread "" 0 s

/-- `Profiler::BeginEvent`: record a new event on the current thread's track
for the current frame; its `Depth` is the post-push stack size minus one and
its buffer index is pushed on the depth stack.  `now` is the
`QueryPerformanceCounter` value.  Returns `none` on depth-stack overflow
(fatal `gAssert` in `FixedArray::Push`). -/
def cpuBeginEvent (now : Nat) (name filePath : String) (line : Nat) (s : CPUState) :
    Option CPUState :=
  if !s.isInitialized then some s
  else if s.paused then some s
  else
    let (ti, s) := getThreadTrack s
    let track := s.tracks.getD ti {}
    let eventData := track.getFrameData s.frameIndex
    (stackPush32 eventData.length track.eventStack).map fun stack' =>
      let ev : ProfilerEvent :=
        { pName := name
          pFilePath := filePath
          depth := (stack'.length - 1) % 2 ^ 8
          lineNumber := line % 2 ^ 18
          threadIndex := track.index % 2 ^ 10
          ticksBegin := now }
      let track' := { track with eventStack := stack' }
      let track' := track'.setFrameData s.frameIndex (eventData ++ [ev])
      { s with tracks := s.tracks.set ti track' }

/-- `Profiler::EndEvent`: pop the depth stack and stamp the referenced
event's end tick.  `none` models the fatal assert on end-without-begin and
the out-of-bounds write when the popped index is not in the current frame's
buffer (undefined behaviour in C++). -/
def cpuEndEvent (now : Nat) (s : CPUState) : Option CPUState :=
  if !s.isInitialized then some s
  else if s.paused then some s
  else
    let (ti, s) := getThreadTrack s
    let track := s.tracks.getD ti {}
    match track.eventStack with
    | [] => none
    | eventIndex :: rest =>
      let eventData := track.getFrameData s.frameIndex
      if eventIndex < eventData.length then
        let eventData' :=
          eventData.modify (fun (e : ProfilerEvent) => { e with ticksEnd := now }) eventIndex
        let track' := { track with eventStack := rest }
        let track' := track'.setFrameData s.frameIndex eventData'
        some { s with tracks := s.tracks.set ti track' }
      else
        none

/-- `Profiler::AddEvent`: append `event` to `trackIndex`'s buffer for
`frameIndex` (the allocator's string copy is the identity here). -/
def addEvent (trackIndex : Nat) (event : ProfilerEvent) (frameIndex : Nat)
    (s : CPUState) : CPUState :=
  { s with
    tracks := s.tracks.modify
      (fun (t : EventTrack) =>
        EventTrack.setFrameData t frameIndex (EventTrack.getFrameData t frameIndex ++ [event]))
      trackIndex }

/-- `Profiler::SetPaused`: only queues the new pause state. -/
def setPaused (paused : Bool) (s : CPUState) : CPUState :=
  { s with queuedPaused := paused }

/-- `Profiler::Tick`: apply the queued pause state; close the root "CPU
Frame" event (except on frame 0); advance the frame index (`uint32`); clear
every track's buffer for the new frame; reopen the root event.  Note: the
code performs no emptiness check of the per-thread depth stacks. -/
def cpuTick (now : Nat) (s : CPUState) : Option CPUState :=
  if !s.isInitialized then some s
  else
    let s := { s with paused := s.queuedPaused }
    if s.paused then some s
    else
      (if s.frameIndex ≠ 0 then cpuEndEvent now s else some s).bind fun s =>
      let s := { s with frameIndex := (s.frameIndex + 1) % U32 }
      let s := { s with
        tracks := s.tracks.map fun (t : EventTrack) => t.setFrameData s.frameIndex [] }
      let s := { s with
        beginFrameTicks := s.beginFrameTicks.set
          (s.frameIndex % s.beginFrameTicks.length) now }
      cpuBeginEvent now "CPU Frame" "" 0 s

/-- One invocation of a registered CPU profiler callback
(`CPUProfilerCallbacks`). -/
inductive CpuCb where
  | evBegin (name : String)
  | evEnd
deriving Repr, DecidableEq

/-- The callback invocations performed by `Profiler::BeginEvent`: the
`OnEventBegin` hook fires whenever the profiler is initialized, before the
pause check. -/
def cpuBeginEventCalls (name : String) (s : CPUState) : List CpuCb :=
  if s.isInitialized then [.evBegin name] else []

/-- The callback invocations performed by `Profiler::EndEvent`. -/
def cpuEndEventCalls (s : CPUState) : List CpuCb :=
  if s.isInitialized then [.evEnd] else []

/-- One `DXGI_FRAME_STATISTICS` result as consumed by `Profiler::Present`. -/
structure FrameStats where
  presentCount : Nat
  syncQPCTime : Nat
  syncRefreshCount : Nat
deriving Repr, DecidableEq

/-- `Profiler::GetPresentEntry`: the ring slot `presentID % size`; `none`
models the null pointer returned when the slot holds a different present and
`isNewEntry` is false. -/
def getPresentEntry (presentID : Nat) (isNewEntry : Bool) (s : CPUState) :
    Option PresentEntry :=
  let e := s.presentQueue.getD (presentID % s.presentQueue.length) {}
  if e.presentID ≠ presentID && !isNewEntry then none else some e

/-- Mutation through the pointer returned by `GetPresentEntry`. -/
def setPresentEntry (presentID : Nat) (f : PresentEntry → PresentEntry) (s : CPUState) :
    CPUState :=
  { s with presentQueue := s.presentQueue.modify f (presentID % s.presentQueue.length) }

/-- The `while (SUCCEEDED(GetFrameStatistics(...)) && PresentCount >
m_LastQueriedPresentID)` polling loop of `Profiler::Present`.  Successive
`GetFrameStatistics` results are the elements of `stats` (an empty list is a
failed call).  `none` is the fatal `gAssert(SyncQPCTime != 0)`. -/
def presentStatsLoop (stats : List FrameStats) (s : CPUState) : Option CPUState :=
  match stats with
  | [] => some s
  | fs :: rest =>
    if fs.presentCount > s.lastQueriedPresentID then
      if fs.syncQPCTime = 0 then none
      else
        let s :=
          if (getPresentEntry fs.presentCount false s).isSome then
            setPresentEntry fs.presentCount (fun e => { e with displayQPC := fs.syncQPCTime }) s
          else s
        let numRefreshes := (fs.syncRefreshCount + U32 - s.lastSyncRefreshCount) % U32
        let s :=
          if fs.syncRefreshCount > 0 ∧ numRefreshes > 1 then
            match getPresentEntry (fs.presentCount - 1) false s with
            | some prevE =>
              if prevE.displayQPC = sQPCDroppedFrame then
                match getPresentEntry (fs.presentCount - 2) false s,
                      getPresentEntry fs.presentCount false s with
                | some prevPrevE, some curE =>
                  let duration := (curE.displayQPC + U64 - prevPrevE.displayQPC) % U64
                  let est := (prevPrevE.displayQPC + duration / numRefreshes) % U64
                  setPresentEntry (fs.presentCount - 1) (fun e => { e with displayQPC := est }) s
                | _, _ =>
                  setPresentEntry (fs.presentCount - 1)
                    (fun e => { e with displayQPC := sQPCMissedFrame }) s
              else s
            | none => s
          else s
        presentStatsLoop rest
          { s with
            lastSyncRefreshCount := fs.syncRefreshCount
            lastQueriedPresentID := fs.presentCount }
    else some s

/-- The inner `for (nextValidPresent = m_LastProcessedValidPresentID;
nextValidPresent <= m_LastQueriedPresentID; ...)` scan of
`Profiler::Present`: it has no early exit, so it yields the *last* entry in
that range whose display time is not the dropped sentinel, recording its id
in `lastProcessedValidPresentID`. -/
def scanNextValid (s : CPUState) : Option PresentEntry × CPUState :=
  (List.range' s.lastProcessedValidPresentID
      (s.lastQueriedPresentID + 1 - s.lastProcessedValidPresentID)).foldl
    (fun (acc : Option PresentEntry × CPUState) id =>
      match getPresentEntry id false acc.2 with
      | some e =>
        if e.displayQPC ≠ sQPCDroppedFrame then
          (some e, { acc.2 with lastProcessedValidPresentID := e.presentID })
        else acc
      | none => acc)
    (none, s)

/-- The `for (presentID = m_LastProcessedPresentID + 1; presentID <
m_LastQueriedPresentID; ...)` emission loop of `Profiler::Present`: a
displayed entry emits a "Present" span up to the next valid display time, a
dropped entry emits a short "Discarded" marker, a missed entry is ignored;
entries whose display time equals the next valid one are deferred (break).
`fuel` bounds the iteration count (the loop advances `presentID` towards
`lastQueriedPresentID`, which it never modifies). -/
def presentProcessLoop (fuel presentID stackSize : Nat) (s : CPUState) : CPUState :=
  match fuel with
  | 0 => s
  | fuel + 1 =>
    if presentID < s.lastQueriedPresentID then
      let toProcess := getPresentEntry presentID false s
      let (nextValid, s) := scanNextValid s
      match nextValid with
      | none => s
      | some nv =>
        match toProcess with
        | none =>
          presentProcessLoop fuel (presentID + 1) stackSize
            { s with lastProcessedPresentID := presentID }
        | some e =>
          if e.displayQPC = sQPCMissedFrame then
            presentProcessLoop fuel (presentID + 1) stackSize
              { s with lastProcessedPresentID := presentID }
          else if e.displayQPC = sQPCDroppedFrame then
            let ev : ProfilerEvent :=
              { pName := "Discarded"
                depth := 1
                ticksBegin := nv.displayQPC
                ticksEnd := (nv.displayQPC + s.msToTicks) % U64 }
            let s := addEvent (s.presentTrackIndex.getD 0) ev e.frameIndex s
            presentProcessLoop fuel (presentID + 1) stackSize
              { s with lastProcessedPresentID := presentID }
          else if nv.displayQPC = e.displayQPC then s
          else
            let ev : ProfilerEvent :=
              { pName := "Present"
                depth := stackSize % 2 ^ 8
                ticksBegin := e.displayQPC
                ticksEnd := nv.displayQPC }
            let s := addEvent (s.presentTrackIndex.getD 0) ev e.frameIndex s
            presentProcessLoop fuel (presentID + 1) (stackSize + 1)
              { s with lastProcessedPresentID := presentID }
    else s

/-- `Profiler::Present`: registers the "Present" track on first use; unless
paused, queues an entry for the present just submitted (`lastPresentCount`
is the `GetLastPresentCount` result, `none` a failed call) — resetting all
pacing state if the swapchain changed or the id went backwards — and polls
frame statistics; then (paused or not) emits "Present"/"Discarded" events
for all processable entries. -/
def present (swapchain now : Nat) (lastPresentCount : Option Nat)
    (stats : List FrameStats) (s : CPUState) : Option CPUState :=
  let s :=
    match s.presentTrackIndex with
    | none =>
      let (i, s') := registerTrack "Present" .Present 0 s
      { s' with presentTrackIndex := some i }
    | some _ => s
  (if !s.paused then
    let s :=
      match lastPresentCount with
      | some pid =>
        let s :=
          if s.lastQueuedPresentID > pid ∨ s.pPresentSwapChain ≠ some swapchain then
            { s with
              lastQueriedPresentID := 0
              lastProcessedPresentID := 0
              lastProcessedValidPresentID := 0
              presentQueue := List.replicate 32 {}
              lastSyncRefreshCount := 0
              pPresentSwapChain := some swapchain }
          else s
        let entry : PresentEntry :=
          { presentQPC := now
            displayQPC := sQPCDroppedFrame
            presentID := pid
            frameIndex := s.frameIndex }
        { s with
          presentQueue := s.presentQueue.set (pid % s.presentQueue.length) entry
          lastQueuedPresentID := pid }
      | none => s
    presentStatsLoop stats s
  else some s).map fun s =>
    presentProcessLoop (s.lastQueriedPresentID - s.lastProcessedPresentID)
      (s.lastProcessedPresentID + 1) 0 s

/-- `QueryData::Query::EndEventFlag`: marks an "End" query. -/
def EndEventFlag : Nat := 0xFFFE

/-- `QueryData::Query::InvalidEventFlag`: the default / dropped marker. -/
def InvalidEventFlag : Nat := 0xFFFF

/-- `GPUProfiler::CommandListState::Query`: both members are 16-bit
bit-fields, defaulting to `InvalidEventFlag`. -/
structure GPUQuery where
  queryIndex : Nat := InvalidEventFlag
  eventIndex : Nat := InvalidEventFlag
deriving Repr, DecidableEq

/-- `GPUProfiler::QueryData::QueryPair` (two 16-bit bit-fields, default
`0xFFFF`). -/
structure QueryPair where
  queryIndexBegin : Nat := 0xFFFF
  queryIndexEnd : Nat := 0xFFFF
deriving Repr, DecidableEq

/-- `QueryPair::IsValid`. -/
def QueryPair.isValid (p : QueryPair) : Bool :=
  p.queryIndexBegin != 0xFFFF && p.queryIndexEnd != 0xFFFF

/-- `GPUProfiler::QueryData`: per-in-flight-frame intermediate query/event
storage. -/
structure QueryData where
  pairs : List QueryPair := []
  events : List ProfilerEvent := []
  numEvents : Nat := 0
deriving Repr, DecidableEq

/-- `GPUProfiler::QueueInfo` (D3D handles and the name omitted). -/
structure QueueInfo where
  gpuCalibrationTicks : Nat := 0
  cpuCalibrationTicks : Nat := 0
  gpuFrequency : Nat := 0
  index : Nat := 0
  queryHeapIndex : Nat := 0
  trackIndex : Nat := 0
deriving Repr, DecidableEq

/-- `GPUProfiler::QueryHeap`.  `readbackData` is the mapped readback buffer
(`maxNumQueries * frameLatency` slots); its contents are produced by the GPU
and are treated as environment-provided. -/
structure QueryHeapState where
  initialized : Bool := false
  maxNumQueries : Nat := 0
  frameLatency : Nat := 0
  queryIndex : Nat := 0
  lastCompletedFence : Nat := 0
  readbackData : List Nat := []
deriving Repr, DecidableEq

/-- A command list handle: its map key and its `GetType()`, reduced to
whether it is a copy command list (query-heap selector). -/
structure CommandList where
  id : Nat
  isCopy : Bool
deriving Repr, DecidableEq

/-- State of `class GPUProfiler`.  `cmdListMap` is the
command-list-to-recording-state hash map as an association list. -/
structure GPUState where
  isInitialized : Bool := false
  isPaused : Bool := false
  pauseQueued : Bool := false
  eventIndex : Nat := 0
  frameLatency : Nat := 0
  frameToReadback : Nat := 0
  frameIndex : Nat := 0
  cpuTickFrequency : Nat := 0
  queryData : List QueryData := []
  heap0 : QueryHeapState := {}
  heap1 : QueryHeapState := {}
  queueEventStack : List (List GPUQuery) := []
  queues : List QueueInfo := []
  cmdListMap : List (Nat × List GPUQuery) := []
deriving Repr, DecidableEq

/-- `GPUProfiler::GetQueryData()`: the query data of the current frame slot. -/
def GPUState.getQueryData (s : GPUState) : QueryData :=
  s.queryData.getD (s.frameIndex % s.frameLatency) {}

/-- Store back the query data for `frameIndex`'s slot. -/
def GPUState.setQueryDataAt (s : GPUState) (frameIndex : Nat) (qd : QueryData) : GPUState :=
  { s with queryData := s.queryData.set (frameIndex % s.frameLatency) qd }

/-- `GPUProfiler::GetHeap(isCopyQueue)`. -/
def GPUState.getHeap (s : GPUState) (isCopy : Bool) : QueryHeapState :=
  if isCopy then s.heap1 else s.heap0

/-- Write back a heap selected by `GetHeap`. -/
def GPUState.setHeap (s : GPUState) (isCopy : Bool) (h : QueryHeapState) : GPUState :=
  if isCopy then { s with heap1 := h } else { s with heap0 := h }

/-- `GPUProfiler::GetState(pCmd, false)`: look up a command list's recorded
queries. -/
def lookupCmdQueries (cid : Nat) (s : GPUState) : Option (List GPUQuery) :=
  (s.cmdListMap.find? (fun e => e.1 = cid)).map (fun e => e.2)

/-- Replace a tracked command list's query list. -/
def setCmdQueries (cid : Nat) (qs : List GPUQuery) (s : GPUState) : GPUState :=
  { s with cmdListMap := s.cmdListMap.map fun e => if e.1 = cid then (cid, qs) else e }

/-- `GPUProfiler::GetState(pCmd, true)`: insert an empty recording state if
the command list is not yet tracked. -/
def ensureCmdState (cid : Nat) (s : GPUState) : GPUState :=
  if (lookupCmdQueries cid s).isSome then s
  else { s with cmdListMap := s.cmdListMap ++ [(cid, [])] }

/-- `QueryHeap::RecordQuery`: atomically reserve the next slot; an index at
or past capacity yields the `0xFFFFFFFF` sentinel and records no timestamp. -/
def recordQuery (h : QueryHeapState) : Nat × QueryHeapState :=
  let index := h.queryIndex
  let h := { h with queryIndex := (h.queryIndex + 1) % U32 }
  if index ≥ h.maxNumQueries then (0xFFFFFFFF, h) else (index, h)

/-- `GPUProfiler::BeginEvent`: register a (default-initialized) query on the
command list, reserve an event index, and — if the frame still has event
capacity — record a timestamp query, fill in the marker (16-bit bit-fields)
and initialize the event's identification fields.  Past capacity, the
default (invalid) marker stays on the command list and nothing else is
touched. -/
def gpuBeginEvent (cmd : CommandList) (name filePath : String) (line : Nat)
    (s : GPUState) : GPUState :=
  if !s.isInitialized then s
  else if s.isPaused then s
  else
    let s := ensureCmdState cmd.id s
    let qs := (lookupCmdQueries cmd.id s).getD []
    let pos := qs.length
    let s := setCmdQueries cmd.id (qs ++ [{}]) s
    let eventIdx := s.eventIndex
    let s := { s with eventIndex := (s.eventIndex + 1) % U32 }
    let qd := s.getQueryData
    if eventIdx ≥ qd.events.length then s
    else
      let (qi, heap') := recordQuery (s.getHeap cmd.isCopy)
      let s := s.setHeap cmd.isCopy heap'
      let marker : GPUQuery := { queryIndex := qi % 2 ^ 16, eventIndex := eventIdx % 2 ^ 16 }
      let s := setCmdQueries cmd.id (((lookupCmdQueries cmd.id s).getD []).set pos marker) s
      let events' := qd.events.modify
        (fun (e : ProfilerEvent) =>
          { e with pName := name, pFilePath := filePath, lineNumber := line % 2 ^ 18 })
        eventIdx
      s.setQueryDataAt s.frameIndex { qd with events := events' }

/-- `GPUProfiler::EndEvent`: record a timestamp query on the command list
with the `EndEventFlag` marker. -/
def gpuEndEvent (cmd : CommandList) (s : GPUState) : GPUState :=
  if !s.isInitialized then s
  else if s.isPaused then s
  else
    let s := ensureCmdState cmd.id s
    let qs := (lookupCmdQueries cmd.id s).getD []
    let (qi, heap') := recordQuery (s.getHeap cmd.isCopy)
    let s := s.setHeap cmd.isCopy heap'
    let marker : GPUQuery := { queryIndex := qi % 2 ^ 16, eventIndex := EndEventFlag }
    setCmdQueries cmd.id (qs ++ [marker]) s

/-- One marker replayed by `GPUProfiler::ExecuteCommandLists` against the
queue's active-event stack: a Begin marker is pushed (and stamps the queue
index, a 4-bit bit-field, unless dropped); an End marker pops its Begin —
the empty-stack pop is the fatal `gAssert("Event Begin/End mismatch")` —
completes the event's query pair, stores the post-pop stack size as its
depth and asserts the event was begun on the same queue. -/
def execQueryStep (queueIndex : Nat) (acc : List GPUQuery × QueryData)
    (query : GPUQuery) : Option (List GPUQuery × QueryData) :=
  let stack := acc.1
  let qd := acc.2
  if query.eventIndex ≠ EndEventFlag then
    match stackPush32 query stack with
    | none => none
    | some stack' =>
      if query.eventIndex = InvalidEventFlag then some (stack', qd)
      else
        let events' := qd.events.modify
          (fun (e : ProfilerEvent) => { e with queueIndex := queueIndex % 2 ^ 4 })
          query.eventIndex
        some (stack', { qd with events := events' })
  else
    match stack with
    | [] => none
    | beginQ :: stack' =>
      if beginQ.eventIndex = InvalidEventFlag then some (stack', qd)
      else
        let pairs' := qd.pairs.modify
          (fun _ => { queryIndexBegin := beginQ.queryIndex, queryIndexEnd := query.queryIndex })
          beginQ.eventIndex
        let events' := qd.events.modify
          (fun (e : ProfilerEvent) => { e with depth := stack'.length % 2 ^ 8 })
          beginQ.eventIndex
        let qd := { qd with pairs := pairs', events := events' }
        if (qd.events.getD beginQ.eventIndex {}).queueIndex = queueIndex then
          some (stack', qd)
        else none

/-- The `for (ID3D12CommandList* pCmd : commandLists)` loop of
`ExecuteCommandLists`: replay each tracked buffer's markers, then clear its
recording state. -/
def execCmdLoop (queueIndex : Nat) (cmds : List Nat) (stack : List GPUQuery)
    (qd : QueryData) (cmdMap : List (Nat × List GPUQuery)) :
    Option (List GPUQuery × QueryData × List (Nat × List GPUQuery)) :=
  match cmds with
  | [] => some (stack, qd, cmdMap)
  | cid :: rest =>
    match (cmdMap.find? (fun e => e.1 = cid)).map (fun e => e.2) with
    | none => execCmdLoop queueIndex rest stack qd cmdMap
    | some queries =>
      (queries.foldlM (execQueryStep queueIndex) (stack, qd)).bind fun acc =>
        execCmdLoop queueIndex rest acc.1 acc.2
          (cmdMap.map fun e => if e.1 = cid then (cid, []) else e)

/-- `GPUProfiler::ExecuteCommandLists` (`NotifySubmitted`): an untracked
queue is ignored; otherwise the current frame's event count is published
(`NumEvents = m_EventIndex`) and every submitted buffer's markers are
replayed against the queue's active-event stack. -/
def executeCommandLists (queueId : Nat) (cmds : List Nat) (s : GPUState) :
    Option GPUState :=
  if !s.isInitialized then some s
  else if s.isPaused then some s
  else if queueId < s.queues.length then
    let stack := s.queueEventStack.getD queueId []
    let qd := s.getQueryData
    let qd := { qd with numEvents := s.eventIndex }
    (execCmdLoop queueId cmds stack qd s.cmdListMap).map fun acc =>
      let s := { s with
        queueEventStack := s.queueEventStack.set queueId acc.1
        cmdListMap := acc.2.2 }
      s.setQueryDataAt s.frameIndex acc.2.1
  else some s

/-- `GPUProfiler::ConvertToCPUTicks` body:
`CPUCalibrationTicks + (gpuTicks - GPUCalibrationTicks) * m_CPUTickFrequency
/ GPUFrequency`, computed in C++ `uint64` arithmetic (each operation wraps
modulo `2^64`; the leading `gAssert(gpuTicks >= GPUCalibrationTicks)` is
enforced at call sites). -/
def convertToCPUTicks (cpuTickFrequency : Nat) (q : QueueInfo) (gpuTicks : Nat) : Nat :=
  (q.cpuCalibrationTicks +
    ((gpuTicks + U64 - q.gpuCalibrationTicks) % U64) * cpuTickFrequency % U64
      / q.gpuFrequency) % U64

/-- `QueryHeap::IsFrameComplete`: monotone fence check with a cached
last-seen value; `fenceValue` is the fence's current completed value
(`GetCompletedValue`). -/
def isFrameComplete (fenceValue frameIndex : Nat) (h : QueryHeapState) :
    Bool × QueryHeapState :=
  if !h.initialized then (true, h)
  else if frameIndex ≤ h.lastCompletedFence ∧ 0 < h.lastCompletedFence then (true, h)
  else
    let cache := max fenceValue h.lastCompletedFence
    (decide (frameIndex ≤ cache), { h with lastCompletedFence := cache })

/-- `QueryHeap::GetQueryData(frameIndex)`: the readback span for the frame's
slot. -/
def heapQueryData (h : QueryHeapState) (frameIndex : Nat) : List Nat :=
  if !h.initialized then []
  else (h.readbackData.drop (frameIndex % h.frameLatency * h.maxNumQueries)).take h.maxNumQueries

/-- `QueryHeap::Resolve`: issues the GPU-side resolve and fence signal; it
mutates no modelled field (hardware work is environment-side). -/
def heapResolve (h : QueryHeapState) : QueryHeapState := h

/-- `QueryHeap::Reset(frameIndex)`: possibly blocks on the fence of frame
`frameIndex - frameLatency` (updating the completion cache via
`IsFrameComplete`), then rewinds the query counter. -/
def heapReset (fenceValue frameIndex : Nat) (h : QueryHeapState) : QueryHeapState :=
  if !h.initialized then h
  else
    let h :=
      if h.frameLatency ≤ frameIndex then
        (isFrameComplete fenceValue (frameIndex - h.frameLatency) h).2
      else h
    { h with queryIndex := 0 }

/-- The body of `GPUProfiler::Tick`'s readback loop for one frame: for each
of the frame's `NumEvents` events, assert its query pair is valid, convert
both resolved GPU ticks to CPU ticks through the owning queue's calibration
(asserting the tick is past calibration) and forward the finished event into
the CPU profiler's history under the queue's track.  `none` covers the
asserts and the out-of-bounds accesses that are undefined behaviour in C++. -/
def gpuReadbackFrame (s : GPUState) (p : CPUState) : Option (QueryData × CPUState) :=
  let qd := s.queryData.getD (s.frameToReadback % s.frameLatency) {}
  (List.range qd.numEvents).foldlM
    (fun (acc : QueryData × CPUState) i =>
      let qd := acc.1
      let p := acc.2
      match qd.events.get? i, qd.pairs.get? i with
      | some event, some pair =>
        if !pair.isValid then none
        else
          match s.queues.get? event.queueIndex with
          | none => none
          | some queue =>
            let queries := heapQueryData (s.getHeap (queue.queryHeapIndex = 1))
              s.frameToReadback
            let tb := queries.getD pair.queryIndexBegin 0
            let te := queries.getD pair.queryIndexEnd 0
            if tb < queue.gpuCalibrationTicks ∨ te < queue.gpuCalibrationTicks then none
            else
              let event := { event with
                ticksBegin := convertToCPUTicks s.cpuTickFrequency queue tb
                ticksEnd := convertToCPUTicks s.cpuTickFrequency queue te }
              let qd := { qd with
                events := qd.events.set i event
                pairs := qd.pairs.set i {} }
              some (qd, addEvent queue.trackIndex event s.frameToReadback p)
      | _, _ => none)
    (qd, p)

/-- The `while (m_FrameToReadback < m_FrameIndex)` loop of
`GPUProfiler::Tick`: stop at the first frame some heap has not finished
resolving (both heaps' completion caches are refreshed either way), else
read the frame back and advance.  `fuel` bounds the iterations. -/
def gpuReadbackLoop (fence0 fence1 : Nat) :
    Nat → GPUState → CPUState → Option (GPUState × CPUState)
  | 0, s, p => some (s, p)
  | fuel + 1, s, p =>
    if s.frameToReadback < s.frameIndex then
      let c0 := isFrameComplete fence0 s.frameToReadback s.heap0
      let c1 := isFrameComplete fence1 s.frameToReadback s.heap1
      let s := { s with heap0 := c0.2, heap1 := c1.2 }
      if c0.1 && c1.1 then
        (gpuReadbackFrame s p).bind fun acc =>
          let s := s.setQueryDataAt s.frameToReadback { acc.1 with numEvents := 0 }
          gpuReadbackLoop fence0 fence1 fuel
            { s with frameToReadback := s.frameToReadback + 1 } acc.2
      else some (s, p)
    else some (s, p)

/-- `GPUProfiler::Tick`: assert every queue's active-event stack is empty
(fatal otherwise), poll the query heaps and populate finished frames'
event timings, apply the queued pause state, and — unless now paused —
assert all tracked command lists were submitted, resolve the heaps, advance
the frame index and reset the heaps and the event counter.  `fence0`,
`fence1` are the heap fences' current completed values. -/
def gpuTick (fence0 fence1 : Nat) (s : GPUState) (p : CPUState) :
    Option (GPUState × CPUState) :=
  if !s.isInitialized then some (s, p)
  else if s.queueEventStack.any (fun st => !st.isEmpty) then none
  else
    (gpuReadbackLoop fence0 fence1 (s.frameIndex - s.frameToReadback) s p).bind
      fun acc =>
        let s := { acc.1 with isPaused := acc.1.pauseQueued }
        let p := acc.2
        if s.isPaused then some (s, p)
        else if s.cmdListMap.any (fun e => !e.2.isEmpty) then none
        else
          let s := { s with heap0 := heapResolve s.heap0, heap1 := heapResolve s.heap1 }
          let s := { s with frameIndex := (s.frameIndex + 1) % U32 }
          let s := { s with
            heap0 := heapReset fence0 s.frameIndex s.heap0
            heap1 := heapReset fence1 s.frameIndex s.heap1
            eventIndex := 0 }
          some (s, p)

/-- One invocation of a registered GPU profiler callback
(`GPUProfilerCallbacks`). -/
inductive GpuCb where
  | evBegin (name : String) (cmdId : Nat)
  | evEnd (cmdId : Nat)
deriving Repr, DecidableEq

/-- Callback invocations of `GPUProfiler::BeginEvent` (fires whenever
initialized, before the pause check). -/
def gpuBeginEventCalls (cmd : CommandList) (name : String) (s : GPUState) : List GpuCb :=
  if s.isInitialized then [.evBegin name cmd.id] else []

/-- Callback invocations of `GPUProfiler::EndEvent`. -/
def gpuEndEventCalls (cmd : CommandList) (s : GPUState) : List GpuCb :=
  if s.isInitialized then [.evEnd cmd.id] else []

/-! ## Theorems -/

lemma U64_pos : 0 < U64 := by decide

-- Wrapped uint64 subtraction coincides with `Nat` subtraction below the
-- calibration bound.
lemma u64_sub_wrap {c t : Nat} (h1 : c ≤ t) (h2 : t < U64) :
    (t + U64 - c) % U64 = t - c := by
  have he : t + U64 - c = (t - c) + U64 := by omega
  rw [he, Nat.add_mod_right, Nat.mod_eq_of_lt (by omega)]

/-- `C4` as stated is false on the code: `ConvertToCPUTicks` computes in
`uint64` arithmetic, and for a large enough drift the product
`(gpuTicks - gpuCalib) * cpuFreq` wraps modulo `2^64`, so with calibration
`(gpuCalib, cpuCalib, cpuFreq, gpuFreq) = (0, 0, 2, 1)` and tick values
`begin_gpu = 2^63 - 1 ≤ end_gpu = 2^63` the converted end precedes the
converted begin. -/
theorem c4_counterexample :
    0 < (⟨0, 0, 1, 0, 0, 0⟩ : QueueInfo).gpuFrequency ∧
    (⟨0, 0, 1, 0, 0, 0⟩ : QueueInfo).gpuCalibrationTicks ≤ 2 ^ 63 - 1 ∧
    (2 ^ 63 - 1 : Nat) ≤ 2 ^ 63 ∧
    convertToCPUTicks 2 ⟨0, 0, 1, 0, 0, 0⟩ (2 ^ 63) <
      convertToCPUTicks 2 ⟨0, 0, 1, 0, 0, 0⟩ (2 ^ 63 - 1) := by
  decide

/-- `C4` (amended): for every calibration with `gpuFreq > 0` and GPU tick
values `gpuCalib ≤ begin_gpu ≤ end_gpu < 2^64`, *provided the conversion
does not overflow `uint64`* — i.e. `(end_gpu - gpuCalib) * cpuFreq < 2^64`
and `cpuCalib + (end_gpu - gpuCalib) * cpuFreq / gpuFreq < 2^64` — the
calibration conversion is monotone: the converted end never precedes the
converted begin. -/
theorem c4_convert_monotone (cpuFreq : Nat) (q : QueueInfo) (tb te : Nat)
    (hfreq : 0 < q.gpuFrequency)
    (hcal : q.gpuCalibrationTicks ≤ tb) (hbe : tb ≤ te) (hte : te < U64)
    (hprod : (te - q.gpuCalibrationTicks) * cpuFreq < U64)
    (hsum : q.cpuCalibrationTicks +
      (te - q.gpuCalibrationTicks) * cpuFreq / q.gpuFrequency < U64) :
    convertToCPUTicks cpuFreq q tb ≤ convertToCPUTicks cpuFreq q te := by
  unfold convertToCPUTicks
  have htb : tb < U64 := lt_of_le_of_lt hbe hte
  have hcal' : q.gpuCalibrationTicks ≤ te := le_trans hcal hbe
  rw [u64_sub_wrap hcal htb, u64_sub_wrap hcal' hte]
  have hmul : (tb - q.gpuCalibrationTicks) * cpuFreq ≤
      (te - q.gpuCalibrationTicks) * cpuFreq :=
    Nat.mul_le_mul_right _ (Nat.sub_le_sub_right hbe _)
  rw [Nat.mod_eq_of_lt (lt_of_le_of_lt hmul hprod), Nat.mod_eq_of_lt hprod]
  have hdiv := Nat.div_le_div_right (c := q.gpuFrequency) hmul
  have hadd := Nat.add_le_add_left hdiv q.cpuCalibrationTicks
  rw [Nat.mod_eq_of_lt (lt_of_le_of_lt hadd hsum), Nat.mod_eq_of_lt hsum]
  exact hadd

/-- Witness for `c4_convert_monotone` at a concrete calibration. -/
theorem c4_convert_monotone_witness :
    convertToCPUTicks 3 ⟨5, 7, 2, 0, 0, 0⟩ 10 ≤ convertToCPUTicks 3 ⟨5, 7, 2, 0, 0, 0⟩ 20 :=
  c4_convert_monotone 3 ⟨5, 7, 2, 0, 0, 0⟩ 10 20 (by decide) (by decide) (by decide)
    (by decide) (by decide) (by decide)

/-- Every track's `Index` field equals its position in `m_Tracks`. -/
def TracksWellIndexed (s : CPUState) : Prop :=
  ∀ i, i < s.tracks.length → (s.tracks.getD i {}).index = i

/-- `C8`: `RegisterTrack` returns an index equal to the number of previously
registered tracks, appends the new track (so registration is append-only:
the existing prefix is untouched and no index is reused), and preserves the
invariant that every track's immutable `Index` field is its position. -/
theorem c8_registerTrack (s : CPUState) (name : String) (ty : ETrackType) (id : Nat)
    (hidx : TracksWellIndexed s) :
    (registerTrack name ty id s).1 = s.tracks.length ∧
    (registerTrack name ty id s).2.tracks =
      s.tracks ++ [{ name := name, id := id, index := s.tracks.length, type := ty,
                     eventStack := [], events := List.replicate s.historySize [] }] ∧
    (registerTrack name ty id s).2.tracks.take s.tracks.length = s.tracks ∧
    TracksWellIndexed (registerTrack name ty id s).2 := by
  refine ⟨rfl, rfl, by simp [registerTrack], ?_⟩
  intro i hi
  simp only [registerTrack, List.length_append, List.length_cons, List.length_nil] at hi
  rcases Nat.lt_or_ge i s.tracks.length with hlt | hge
  · simpa [registerTrack, List.getD, List.getElem?_append_left hlt] using hidx i hlt
  · have hieq : i = s.tracks.length := by omega
    subst hieq
    simp [registerTrack, List.getD, List.getElem?_append_right (Nat.le_refl _)]

/-- Witness for `c8_registerTrack` on the empty profiler. -/
theorem c8_registerTrack_witness :
    (registerTrack "A" .CPU 7 {}).1 = (({} : CPUState)).tracks.length ∧
    (registerTrack "A" .CPU 7 {}).2.tracks =
      (({} : CPUState)).tracks ++
        [{ name := "A", id := 7, index := (({} : CPUState)).tracks.length, type := .CPU,
           eventStack := [], events := List.replicate (({} : CPUState)).historySize [] }] ∧
    (registerTrack "A" .CPU 7 {}).2.tracks.take (({} : CPUState)).tracks.length =
      (({} : CPUState)).tracks ∧
    TracksWellIndexed (registerTrack "A" .CPU 7 {}).2 :=
  c8_registerTrack {} "A" .CPU 7 (by intro i hi; simp at hi)

/-- `C9`: before `Initialize` has set the initialized flag, every modelled
operation — CPU `BeginEvent`/`EndEvent`/`Tick`, GPU
`BeginEvent`/`EndEvent`/`Tick`/`ExecuteCommandLists` — returns immediately:
the state is unchanged and no callback fires. -/
theorem c9_uninitialized_noop (now line queueId f0 f1 : Nat) (name filePath : String)
    (s : CPUState) (g : GPUState) (p : CPUState) (cmd : CommandList) (cmds : List Nat)
    (hs : s.isInitialized = false) (hg : g.isInitialized = false) :
    cpuBeginEvent now name filePath line s = some s ∧
    cpuEndEvent now s = some s ∧
    cpuTick now s = some s ∧
    cpuBeginEventCalls name s = [] ∧
    cpuEndEventCalls s = [] ∧
    gpuBeginEvent cmd name filePath line g = g ∧
    gpuEndEvent cmd g = g ∧
    gpuTick f0 f1 g p = some (g, p) ∧
    executeCommandLists queueId cmds g = some g ∧
    gpuBeginEventCalls cmd name g = [] ∧
    gpuEndEventCalls cmd g = [] := by
  refine ⟨?_, ?_, ?_, ?_, ?_, ?_, ?_, ?_, ?_, ?_, ?_⟩ <;>
    simp [cpuBeginEvent, cpuEndEvent, cpuTick, cpuBeginEventCalls, cpuEndEventCalls,
      gpuBeginEvent, gpuEndEvent, gpuTick, executeCommandLists, gpuBeginEventCalls,
      gpuEndEventCalls, hs, hg]

/-- Witness for `c9_uninitialized_noop` on default (never-initialized)
states. -/
theorem c9_uninitialized_noop_witness :
    cpuBeginEvent 1 "n" "f" 2 {} = some {} ∧
    cpuEndEvent 1 {} = some {} ∧
    cpuTick 1 {} = some {} ∧
    cpuBeginEventCalls "n" {} = [] ∧
    cpuEndEventCalls {} = [] ∧
    gpuBeginEvent ⟨0, false⟩ "n" "f" 2 {} = {} ∧
    gpuEndEvent ⟨0, false⟩ {} = {} ∧
    gpuTick 0 0 {} {} = some ({}, {}) ∧
    executeCommandLists 0 [0] {} = some {} ∧
    gpuBeginEventCalls ⟨0, false⟩ "n" {} = [] ∧
    gpuEndEventCalls ⟨0, false⟩ {} = [] :=
  c9_uninitialized_noop 1 2 0 0 0 "n" "f" {} {} {} ⟨0, false⟩ [0] rfl rfl

/-- `C10`: when initialized but paused, CPU and GPU `BeginEvent`/`EndEvent`
still invoke the registered callbacks with the caller's arguments while
leaving the recording state completely unchanged. -/
theorem c10_paused_callbacks (now line : Nat) (name filePath : String)
    (s : CPUState) (g : GPUState) (cmd : CommandList)
    (hs : s.isInitialized = true) (hp : s.paused = true)
    (hg : g.isInitialized = true) (hgp : g.isPaused = true) :
    cpuBeginEvent now name filePath line s = some s ∧
    cpuBeginEventCalls name s = [.evBegin name] ∧
    cpuEndEvent now s = some s ∧
    cpuEndEventCalls s = [.evEnd] ∧
    gpuBeginEvent cmd name filePath line g = g ∧
    gpuBeginEventCalls cmd name g = [.evBegin name cmd.id] ∧
    gpuEndEvent cmd g = g ∧
    gpuEndEventCalls cmd g = [.evEnd cmd.id] := by
  refine ⟨?_, ?_, ?_, ?_, ?_, ?_, ?_, ?_⟩ <;>
    simp [cpuBeginEvent, cpuEndEvent, cpuBeginEventCalls, cpuEndEventCalls,
      gpuBeginEvent, gpuEndEvent, gpuBeginEventCalls, gpuEndEventCalls, hs, hp, hg, hgp]

/-- Witness for `c10_paused_callbacks` on concrete paused states. -/
theorem c10_paused_callbacks_witness :
    cpuBeginEvent 1 "n" "f" 2 { isInitialized := true, paused := true } =
      some { isInitialized := true, paused := true } ∧
    cpuBeginEventCalls "n" { isInitialized := true, paused := true } = [.evBegin "n"] ∧
    cpuEndEvent 1 { isInitialized := true, paused := true } =
      some { isInitialized := true, paused := true } ∧
    cpuEndEventCalls { isInitialized := true, paused := true } = [.evEnd] ∧
    gpuBeginEvent ⟨3, false⟩ "n" "f" 2 { isInitialized := true, isPaused := true } =
      { isInitialized := true, isPaused := true } ∧
    gpuBeginEventCalls ⟨3, false⟩ "n" { isInitialized := true, isPaused := true } =
      [.evBegin "n" 3] ∧
    gpuEndEvent ⟨3, false⟩ { isInitialized := true, isPaused := true } =
      { isInitialized := true, isPaused := true } ∧
    gpuEndEventCalls ⟨3, false⟩ { isInitialized := true, isPaused := true } =
      [.evEnd 3] :=
  c10_paused_callbacks 1 2 "n" "f" { isInitialized := true, paused := true }
    { isInitialized := true, isPaused := true } ⟨3, false⟩ rfl rfl rfl rfl

-- `BeginEvent` never writes the live pause flag.
lemma cpuBeginEvent_paused (now : Nat) (name fp : String) (line : Nat)
    (s s' : CPUState) (h : cpuBeginEvent now name fp line s = some s') :
    s'.paused = s.paused := by
  unfold cpuBeginEvent getThreadTrack registerCurrentThread registerTrack at h
  cases h1 : s.isInitialized <;> rw [h1] at h
  · simp at h; subst h; rfl
  · cases h2 : s.paused <;> rw [h2] at h <;> simp at h
    · cases h3 : s.curThreadTrack <;> rw [h3] at h <;> simp at h <;>
        (obtain ⟨st, -, heq⟩ := h; subst heq; simp [h2])
    · subst h; exact h2

-- `EndEvent` never writes the live pause flag.
lemma cpuEndEvent_paused (now : Nat) (s s' : CPUState)
    (h : cpuEndEvent now s = some s') : s'.paused = s.paused := by
  unfold cpuEndEvent getThreadTrack registerCurrentThread registerTrack at h
  cases h1 : s.isInitialized <;> rw [h1] at h
  · simp at h; subst h; rfl
  · cases h2 : s.paused <;> rw [h2] at h <;> simp at h
    · cases h3 : s.curThreadTrack <;> rw [h3] at h <;>
        (split at h
         · simp at h
         · split at h
           · simp at h; subst h; simp [h2]
           · simp at h)
    · subst h; exact h2

-- `SetPaused` commutes with `BeginEvent`: recording is gated by the live
-- flag only, which `SetPaused` does not touch.
lemma cpuBeginEvent_setPaused (now : Nat) (name fp : String) (line : Nat)
    (pz : Bool) (s : CPUState) :
    cpuBeginEvent now name fp line (setPaused pz s) =
      (cpuBeginEvent now name fp line s).map (setPaused pz) := by
  unfold cpuBeginEvent setPaused getThreadTrack registerCurrentThread registerTrack
  cases h1 : s.isInitialized <;> simp [h1]
  cases h2 : s.paused <;> simp [h1, h2]
  cases h3 : s.curThreadTrack <;> simp [h3, Option.map_map] <;>
    (congr 1 <;> funext stack' <;> simp [h1, h2, h3])

-- `SetPaused` commutes with `EndEvent`.
lemma cpuEndEvent_setPaused (now : Nat) (pz : Bool) (s : CPUState) :
    cpuEndEvent now (setPaused pz s) = (cpuEndEvent now s).map (setPaused pz) := by
  unfold cpuEndEvent setPaused getThreadTrack registerCurrentThread registerTrack
  cases h1 : s.isInitialized <;> simp [h1]
  cases h2 : s.paused <;> simp [h1, h2]
  cases h3 : s.curThreadTrack <;> simp [h3] <;>
    (split <;> rename_i hstk <;> simp [hstk] <;> (split <;> simp [h1, h2, h3]))

/-- `C7`: `SetPaused(p)` is deferred: it leaves the live pause flag
unchanged, `BeginEvent`/`EndEvent` issued after it behave exactly as
without it (they are gated by the previous pause state; the queued flag is
merely carried along), and the queued value takes effect exactly at the
next `Tick()`, whose resulting state is paused iff `p`. -/
theorem c7_setPaused_deferred (s : CPUState) (pz : Bool) (now : Nat)
    (name fp : String) (line : Nat) (hinit : s.isInitialized = true) :
    (setPaused pz s).paused = s.paused ∧
    cpuBeginEvent now name fp line (setPaused pz s) =
      (cpuBeginEvent now name fp line s).map (setPaused pz) ∧
    cpuEndEvent now (setPaused pz s) = (cpuEndEvent now s).map (setPaused pz) ∧
    (∀ s', cpuTick now (setPaused pz s) = some s' → s'.paused = pz) := by
  refine ⟨rfl, cpuBeginEvent_setPaused now name fp line pz s,
    cpuEndEvent_setPaused now pz s, ?_⟩
  intro s' h
  unfold cpuTick setPaused at h
  rw [hinit] at h
  simp only [Bool.not_true, if_false] at h
  by_cases hq : pz
  · subst hq
    simp only [if_true] at h
    cases h; rfl
  · rw [Bool.not_eq_true] at hq
    subst hq
    simp only [if_false, Bool.false_eq_true] at h
    rw [Option.bind_eq_some] at h
    obtain ⟨s2, h2, h3⟩ := h
    have hp2 : s2.paused = false := by
      split at h2
      · exact cpuEndEvent_paused now _ s2 h2
      · cases h2; rfl
    have := cpuBeginEvent_paused now "CPU Frame" "" 0 _ s' h3
    simpa [hp2] using this

/-- Witness for `c7_setPaused_deferred` on a concrete initialized state. -/
theorem c7_setPaused_deferred_witness :
    (setPaused true { isInitialized := true }).paused =
      ({ isInitialized := true } : CPUState).paused ∧
    cpuBeginEvent 5 "n" "f" 1 (setPaused true { isInitialized := true }) =
      (cpuBeginEvent 5 "n" "f" 1 { isInitialized := true }).map (setPaused true) ∧
    cpuEndEvent 5 (setPaused true { isInitialized := true }) =
      (cpuEndEvent 5 { isInitialized := true }).map (setPaused true) ∧
    (∀ s', cpuTick 5 (setPaused true { isInitialized := true }) = some s' →
      s'.paused = true) :=
  c7_setPaused_deferred { isInitialized := true } true 5 "n" "f" 1 rfl


-- Looking up a command list right after `GetState(pCmd, true)` created it.
lemma lookupCmdQueries_ensure (cid : Nat) (s : GPUState) :
    lookupCmdQueries cid (ensureCmdState cid s) =
      some ((lookupCmdQueries cid s).getD []) := by
  unfold ensureCmdState
  cases h : lookupCmdQueries cid s <;> simp [h]
  unfold lookupCmdQueries at h ⊢
  rcases hf : s.cmdListMap.find? (fun e => e.1 = cid) with _ | v
  · rw [List.find?_append, hf]
    simp
  · simp [hf] at h

lemma find?_map_replace (l : List (Nat × List GPUQuery)) (cid : Nat)
    (qs : List GPUQuery) (h : (l.find? (fun e => e.1 = cid)).isSome) :
    ((l.map fun e => if e.1 = cid then (cid, qs) else e).find?
      (fun e => e.1 = cid)).map (fun e => e.2) = some qs := by
  induction l with
  | nil => simp at h
  | cons a t ih =>
    by_cases hc : a.1 = cid
    · simp [hc, List.find?_cons_of_pos]
    · rw [List.find?_cons_of_neg _ (by simp [hc])] at h
      simp only [List.map_cons, if_neg hc]
      rw [List.find?_cons_of_neg _ (by simp [hc])]
      exact ih h

-- Replacing the query list of a tracked command list.
lemma lookupCmdQueries_set (cid : Nat) (qs : List GPUQuery) (s : GPUState)
    (h : (lookupCmdQueries cid s).isSome) :
    lookupCmdQueries cid (setCmdQueries cid qs s) = some qs := by
  unfold lookupCmdQueries setCmdQueries at *
  simp only at h ⊢
  apply find?_map_replace
  cases hf : s.cmdListMap.find? (fun e => e.1 = cid) <;> simp [hf] at h ⊢

-- Field stability of the command-list-map / heap / query-data setters.
@[simp] lemma ensureCmdState_queryData (cid : Nat) (s : GPUState) :
    (ensureCmdState cid s).queryData = s.queryData := by
  unfold ensureCmdState; split <;> rfl

@[simp] lemma ensureCmdState_eventIndex (cid : Nat) (s : GPUState) :
    (ensureCmdState cid s).eventIndex = s.eventIndex := by
  unfold ensureCmdState; split <;> rfl

@[simp] lemma ensureCmdState_frameIndex (cid : Nat) (s : GPUState) :
    (ensureCmdState cid s).frameIndex = s.frameIndex := by
  unfold ensureCmdState; split <;> rfl

@[simp] lemma ensureCmdState_frameLatency (cid : Nat) (s : GPUState) :
    (ensureCmdState cid s).frameLatency = s.frameLatency := by
  unfold ensureCmdState; split <;> rfl

@[simp] lemma ensureCmdState_heap0 (cid : Nat) (s : GPUState) :
    (ensureCmdState cid s).heap0 = s.heap0 := by
  unfold ensureCmdState; split <;> rfl

@[simp] lemma ensureCmdState_heap1 (cid : Nat) (s : GPUState) :
    (ensureCmdState cid s).heap1 = s.heap1 := by
  unfold ensureCmdState; split <;> rfl

@[simp] lemma setCmdQueries_queryData (cid : Nat) (qs : List GPUQuery) (s : GPUState) :
    (setCmdQueries cid qs s).queryData = s.queryData := rfl

@[simp] lemma setCmdQueries_eventIndex (cid : Nat) (qs : List GPUQuery) (s : GPUState) :
    (setCmdQueries cid qs s).eventIndex = s.eventIndex := rfl

@[simp] lemma setCmdQueries_frameIndex (cid : Nat) (qs : List GPUQuery) (s : GPUState) :
    (setCmdQueries cid qs s).frameIndex = s.frameIndex := rfl

@[simp] lemma setCmdQueries_frameLatency (cid : Nat) (qs : List GPUQuery) (s : GPUState) :
    (setCmdQueries cid qs s).frameLatency = s.frameLatency := rfl

@[simp] lemma setCmdQueries_heap0 (cid : Nat) (qs : List GPUQuery) (s : GPUState) :
    (setCmdQueries cid qs s).heap0 = s.heap0 := rfl

@[simp] lemma setCmdQueries_heap1 (cid : Nat) (qs : List GPUQuery) (s : GPUState) :
    (setCmdQueries cid qs s).heap1 = s.heap1 := rfl

@[simp] lemma setHeap_queryData (b : Bool) (h : QueryHeapState) (s : GPUState) :
    (s.setHeap b h).queryData = s.queryData := by
  unfold GPUState.setHeap; split <;> rfl

@[simp] lemma setHeap_eventIndex (b : Bool) (h : QueryHeapState) (s : GPUState) :
    (s.setHeap b h).eventIndex = s.eventIndex := by
  unfold GPUState.setHeap; split <;> rfl

@[simp] lemma setHeap_frameIndex (b : Bool) (h : QueryHeapState) (s : GPUState) :
    (s.setHeap b h).frameIndex = s.frameIndex := by
  unfold GPUState.setHeap; split <;> rfl

@[simp] lemma setHeap_frameLatency (b : Bool) (h : QueryHeapState) (s : GPUState) :
    (s.setHeap b h).frameLatency = s.frameLatency := by
  unfold GPUState.setHeap; split <;> rfl

@[simp] lemma setHeap_cmdListMap (b : Bool) (h : QueryHeapState) (s : GPUState) :
    (s.setHeap b h).cmdListMap = s.cmdListMap := by
  unfold GPUState.setHeap; split <;> rfl

-- Lookup depends only on the command-list map.
lemma lookupCmdQueries_congr (cid : Nat) (s t : GPUState)
    (h : s.cmdListMap = t.cmdListMap) :
    lookupCmdQueries cid s = lookupCmdQueries cid t := by
  unfold lookupCmdQueries; rw [h]

/-- `C5`: in one frame, each GPU `BeginEvent` whose reserved event index is
below the frame's event capacity records its event at exactly that slot
(leaving every other slot untouched), while a `BeginEvent` whose reserved
index is at or past capacity is dropped: the frame's query data and both
query heaps are unchanged, and only a default (invalid) marker is appended
to the command list's recording state; likewise `RecordQuery` past the heap
capacity yields the `0xFFFFFFFF` sentinel index. -/
theorem c5_gpu_event_capacity (cmd : CommandList) (name fp : String) (line : Nat)
    (s : GPUState) (hinit : s.isInitialized = true) (hpause : s.isPaused = false) :
    (s.eventIndex < s.getQueryData.events.length →
      ((gpuBeginEvent cmd name fp line s).getQueryData.events.length =
          s.getQueryData.events.length ∧
       (gpuBeginEvent cmd name fp line s).getQueryData.events[s.eventIndex]? =
         (s.getQueryData.events[s.eventIndex]?).map
           (fun e => { e with pName := name, pFilePath := fp, lineNumber := line % 2 ^ 18 }) ∧
       (∀ j, j ≠ s.eventIndex →
         (gpuBeginEvent cmd name fp line s).getQueryData.events[j]? =
           s.getQueryData.events[j]?))) ∧
    (s.getQueryData.events.length ≤ s.eventIndex →
      ((gpuBeginEvent cmd name fp line s).queryData = s.queryData ∧
       (gpuBeginEvent cmd name fp line s).heap0 = s.heap0 ∧
       (gpuBeginEvent cmd name fp line s).heap1 = s.heap1 ∧
       lookupCmdQueries cmd.id (gpuBeginEvent cmd name fp line s) =
         some ((lookupCmdQueries cmd.id s).getD [] ++ [({} : GPUQuery)]) ∧
       (gpuBeginEvent cmd name fp line s).eventIndex = (s.eventIndex + 1) % U32)) ∧
    (∀ h : QueryHeapState, h.maxNumQueries ≤ h.queryIndex →
      (recordQuery h).1 = 0xFFFFFFFF) := by
  have hqd : ∀ (t : GPUState), t.queryData = s.queryData → t.frameIndex = s.frameIndex →
      t.frameLatency = s.frameLatency → t.getQueryData = s.getQueryData := by
    intro t h1 h2 h3
    unfold GPUState.getQueryData
    rw [h1, h2, h3]
  refine ⟨?_, ?_, ?_⟩
  · intro hlt
    have hpos : 0 < s.getQueryData.events.length := lt_of_le_of_lt (Nat.zero_le _) hlt
    have hslot : s.frameIndex % s.frameLatency < s.queryData.length := by
      by_contra hge
      push_neg at hge
      have hnone : s.queryData[s.frameIndex % s.frameLatency]? = none :=
        List.getElem?_eq_none hge
      have : s.getQueryData = {} := by
        unfold GPUState.getQueryData
        rw [List.getD_eq_getElem?_getD, hnone]
        rfl
      rw [this] at hpos
      simp at hpos
    unfold gpuBeginEvent
    rw [hinit, hpause]
    simp only [Bool.not_true, Bool.false_eq_true, if_false]
    split
    · rename_i hcond
      simp only [ensureCmdState_eventIndex, setCmdQueries_eventIndex] at hcond
      rw [hqd _ (by simp) (by simp) (by simp)] at hcond
      omega
    · rename_i hcond
      have hfix : ∀ (t : GPUState) (qd : QueryData),
          t.frameIndex = s.frameIndex → t.frameLatency = s.frameLatency →
          t.queryData = s.queryData →
          (t.setQueryDataAt t.frameIndex qd).getQueryData = qd := by
        intro t qd h1 h2 h3
        unfold GPUState.setQueryDataAt GPUState.getQueryData
        simp only [h1, h2, h3, List.length_set]
        rw [List.getD_eq_getElem?_getD, List.getElem?_set_self hslot]
        rfl
      rw [hfix _ _ (by simp) (by simp) (by simp)]
      rw [hqd _ (by simp) (by simp) (by simp)]
      refine ⟨by simp [List.length_modify], ?_, ?_⟩
      · rw [List.getElem?_modify]
        simp
      · intro j hj
        rw [List.getElem?_modify]
        cases hje : s.getQueryData.events[j]? <;> simp [hje, Ne.symm hj]
  · intro hge
    unfold gpuBeginEvent
    rw [hinit, hpause]
    simp only [Bool.not_true, Bool.false_eq_true, if_false]
    split
    · rename_i hcond
      refine ⟨by simp, by simp, by simp, ?_, by simp⟩
      have h1 := lookupCmdQueries_ensure cmd.id s
      have h2 : (lookupCmdQueries cmd.id (ensureCmdState cmd.id s)).isSome := by
        rw [h1]; rfl
      have h3 := lookupCmdQueries_set cmd.id
        (((lookupCmdQueries cmd.id (ensureCmdState cmd.id s)).getD []) ++ [({} : GPUQuery)])
        (ensureCmdState cmd.id s) h2
      nth_rewrite 2 [h1] at h3
      rw [Option.getD_some] at h3
      unfold lookupCmdQueries at h3 ⊢
      simpa using h3
    · rename_i hcond
      simp only [ensureCmdState_eventIndex, setCmdQueries_eventIndex] at hcond
      rw [hqd _ (by simp) (by simp) (by simp)] at hcond
      omega
  · intro h hcap
    unfold recordQuery
    simp [hcap]



/-- Concrete GPU state used by the `C5` witness: frame event capacity 2,
event counter already at capacity. -/
def c5State : GPUState :=
  { isInitialized := true
    isPaused := false
    eventIndex := 2
    frameLatency := 1
    frameIndex := 0
    queryData := [{ pairs := List.replicate 2 {}, events := List.replicate 2 {}, numEvents := 0 }]
    heap0 := { initialized := true, maxNumQueries := 4, frameLatency := 1 }
    queueEventStack := [[]]
    queues := [{ gpuFrequency := 1 }]
    cmdListMap := [] }

/-- Witness for `c5_gpu_event_capacity` at a concrete at-capacity state. -/
theorem c5_gpu_event_capacity_witness :
    (c5State.eventIndex < c5State.getQueryData.events.length →
      ((gpuBeginEvent ⟨1, false⟩ "draw" "" 0 c5State).getQueryData.events.length =
          c5State.getQueryData.events.length ∧
       (gpuBeginEvent ⟨1, false⟩ "draw" "" 0 c5State).getQueryData.events[c5State.eventIndex]? =
         (c5State.getQueryData.events[c5State.eventIndex]?).map
           (fun e => { e with pName := "draw", pFilePath := "", lineNumber := 0 % 2 ^ 18 }) ∧
       (∀ j, j ≠ c5State.eventIndex →
         (gpuBeginEvent ⟨1, false⟩ "draw" "" 0 c5State).getQueryData.events[j]? =
           c5State.getQueryData.events[j]?))) ∧
    (c5State.getQueryData.events.length ≤ c5State.eventIndex →
      ((gpuBeginEvent ⟨1, false⟩ "draw" "" 0 c5State).queryData = c5State.queryData ∧
       (gpuBeginEvent ⟨1, false⟩ "draw" "" 0 c5State).heap0 = c5State.heap0 ∧
       (gpuBeginEvent ⟨1, false⟩ "draw" "" 0 c5State).heap1 = c5State.heap1 ∧
       lookupCmdQueries 1 (gpuBeginEvent ⟨1, false⟩ "draw" "" 0 c5State) =
         some ((lookupCmdQueries 1 c5State).getD [] ++ [({} : GPUQuery)]) ∧
       (gpuBeginEvent ⟨1, false⟩ "draw" "" 0 c5State).eventIndex =
         (c5State.eventIndex + 1) % U32)) ∧
    (∀ h : QueryHeapState, h.maxNumQueries ≤ h.queryIndex →
      (recordQuery h).1 = 0xFFFFFFFF) :=
  c5_gpu_event_capacity ⟨1, false⟩ "draw" "" 0 c5State rfl rfl


/-- State with an open (un-ended) CPU region at a frame boundary: frame 1
was started (opening the root "CPU Frame" event) and a "Leak" region was
begun but never ended. -/
def c6Pre : CPUState :=
  ((cpuTick 1 (cpuInit 4 1000 {})).bind (cpuBeginEvent 2 "Leak" "" 0)).getD {}

/-- `C6` is false on the code: `Profiler::Tick` contains no assertion that
the registered threads' depth stacks are empty.  At `c6Pre` — whose thread
track has a non-empty depth stack (an open region) — `Tick` completes
normally (no assert/report path), and afterwards the stack still holds the
leaked frame-root entry, silently carried over (the pop performed by the
root-event `EndEvent` removed the leaked region instead of the root). -/
theorem c6_counterexample :
    (c6Pre.tracks.getD 0 {}).eventStack ≠ [] ∧
    (cpuTick 3 c6Pre).isSome = true ∧
    (((cpuTick 3 c6Pre).getD {}).tracks.getD 0 {}).eventStack.length = 2 := by
  decide

/-- `C6` (amended): only the GPU profiler's `Tick` asserts emptiness of the
per-queue active-event stacks — with any queue stack non-empty it takes the
fatal assert path; the CPU profiler's `Tick` performs no per-thread
depth-stack check: with an open region it completes normally and the leaked
stack entry survives the frame boundary. -/
theorem c6_tick_stack_check (g : GPUState) (p : CPUState) (f0 f1 : Nat)
    (hinit : g.isInitialized = true)
    (hne : g.queueEventStack.any (fun st => !st.isEmpty) = true) :
    gpuTick f0 f1 g p = none ∧
    (cpuTick 3 c6Pre).isSome = true ∧
    (((cpuTick 3 c6Pre).getD {}).tracks.getD 0 {}).eventStack ≠ [] := by
  refine ⟨?_, by decide, by decide⟩
  unfold gpuTick
  rw [hinit]
  simp [hne]

/-- Witness for `c6_tick_stack_check` at a concrete GPU state with one
non-empty queue stack. -/
theorem c6_tick_stack_check_witness :
    gpuTick 0 0 { isInitialized := true, queueEventStack := [[{ queryIndex := 0, eventIndex := 0 }]] } {} = none ∧
    (cpuTick 3 c6Pre).isSome = true ∧
    (((cpuTick 3 c6Pre).getD {}).tracks.getD 0 {}).eventStack ≠ [] :=
  c6_tick_stack_check
    { isInitialized := true, queueEventStack := [[{ queryIndex := 0, eventIndex := 0 }]] }
    {} 0 0 rfl (by decide)


/-- Driver for the present-pacing scenario: four frames, one `Tick` +
`Present` each.  Presents `P1..P4` get ids `1..4`; `P2`'s display statistic
is never observed; `P1`, `P3`, `P4` are observed displayed at ticks
`100`, `130`, `160` (sync refresh counts `1`, `2`, `3`).  The profiler is
initialized with history size 8 and a tick frequency of 10000 (so a
millisecond is 10 ticks). -/
def c3Run : Option CPUState :=
  (cpuTick 1000 (cpuInit 8 10000 {})).bind fun s =>
  (present 1 1001 (some 1) [] s).bind fun s =>
  (cpuTick 2000 s).bind fun s =>
  (present 1 2001 (some 2) [⟨1, 100, 1⟩] s).bind fun s =>
  (cpuTick 3000 s).bind fun s =>
  (present 1 3001 (some 3) [⟨3, 130, 2⟩] s).bind fun s =>
  (cpuTick 4000 s).bind fun s =>
  present 1 4001 (some 4) [⟨4, 160, 3⟩] s

/-- `C3`: in the pacing scenario of `c3Run` the tracker emits exactly three
events on the "Present" track (track index 1): a "Present" span `[100,130)`
in frame 1's buffer (`P1`'s frame), a "Discarded" marker `[130,140)` — one
millisecond at tick 130 — in frame 2's buffer (`P2`'s frame), and a
"Present" span `[130,160)` in frame 3's buffer (`P3`'s frame); every other
frame buffer of the track is empty. -/
theorem c3_present_pacing :
    c3Run.map (fun s => ((s.tracks.getD 1 {}).name, (s.tracks.getD 1 {}).events)) =
      some ("Present",
        [[],
         [{ pName := "Present", ticksBegin := 100, ticksEnd := 130 }],
         [{ pName := "Discarded", depth := 1, ticksBegin := 130, ticksEnd := 140 }],
         [{ pName := "Present", ticksBegin := 130, ticksEnd := 160 }],
         [], [], [], []]) := by
  decide


/-- One recording call of the C1 scenario: a `BeginEvent` (with its
`QueryPerformanceCounter` value and name) or an `EndEvent`. -/
inductive CpuOp where
  | beginE (now : Nat) (name : String)
  | endE (now : Nat)
deriving Repr, DecidableEq

/-- Run one recording call against the CPU profiler. -/
def runCpuOp (s : CPUState) (op : CpuOp) : Option CPUState :=
  match op with
  | .beginE now name => cpuBeginEvent now name "" 0 s
  | .endE now => cpuEndEvent now s

/-- Run a sequence of recording calls. -/
def runCpuOps (ops : List CpuOp) (s : CPUState) : Option CPUState :=
  ops.foldlM runCpuOp s

/-- Reference nesting levels: starting with `o` open regions, the depth of
each `BeginEvent` in call order is the number of regions open when it is
issued. -/
def cpuSpecDepths (o : Nat) : List CpuOp → List Nat
  | [] => []
  | .beginE _ _ :: rest => o :: cpuSpecDepths (o + 1) rest
  | .endE _ :: rest => cpuSpecDepths (o - 1) rest

/-- Initialized single-thread profiler before its first frame: history size
`historySize`, the calling thread registered. -/
def c1Start (historySize : Nat) : CPUState :=
  (registerCurrentThread "Main" 1 (cpuInit historySize 1000 {})).2

/-- Invariant of the C1 run: initialized, unpaused, thread track 0
registered with a non-empty frame ring, every stack entry indexing into the
current frame's buffer. -/
def C1Inv (s : CPUState) : Prop :=
  s.isInitialized = true ∧ s.paused = false ∧ s.curThreadTrack = some 0 ∧
  0 < s.tracks.length ∧ 0 < (s.tracks.getD 0 {}).events.length ∧
  (∀ i ∈ (s.tracks.getD 0 {}).eventStack,
    i < ((s.tracks.getD 0 {}).getFrameData s.frameIndex).length)

lemma getFrameData_setFrameData (t : EventTrack) (fi : Nat) (d : List ProfilerEvent)
    (h : 0 < t.events.length) : (t.setFrameData fi d).getFrameData fi = d := by
  unfold EventTrack.setFrameData EventTrack.getFrameData
  simp only [List.length_set]
  rw [List.getD_eq_getElem?_getD, List.getElem?_set_self (Nat.mod_lt _ h)]
  rfl

lemma map_depth_modify (now : Nat) (i : Nat) (l : List ProfilerEvent) :
    (l.modify (fun (e : ProfilerEvent) => { e with ticksEnd := now }) i).map
        (fun e => e.depth) =
      l.map (fun e => e.depth) := by
  apply List.ext_getElem?
  intro n
  rw [List.getElem?_map, List.getElem?_map, List.getElem?_modify]
  cases hn : l[n]? <;> simp [hn]
  split <;> rfl

lemma c1_run (ops : List CpuOp) : ∀ (s s' : CPUState), C1Inv s →
    runCpuOps ops s = some s' →
    ((s'.tracks.getD 0 {}).getFrameData s'.frameIndex).map (fun e => e.depth) =
      ((s.tracks.getD 0 {}).getFrameData s.frameIndex).map (fun e => e.depth) ++
        cpuSpecDepths (s.tracks.getD 0 {}).eventStack.length ops := by
  induction ops with
  | nil =>
    intro s s' _ h
    simp [runCpuOps, List.foldlM] at h
    subst h
    simp [cpuSpecDepths]
  | cons op rest ih =>
    intro s s' hinv hrun
    obtain ⟨hini, hpau, hct, hlen, helen, hbound⟩ := hinv
    rw [runCpuOps, List.foldlM_cons] at hrun
    rw [show (do
          let init ← runCpuOp s op
          rest.foldlM runCpuOp init) = (runCpuOp s op).bind (rest.foldlM runCpuOp)
        from rfl, Option.bind_eq_some] at hrun
    obtain ⟨s1, h1, h2⟩ := hrun
    cases op with
    | beginE now name =>
      unfold runCpuOp cpuBeginEvent getThreadTrack at h1
      rw [hini, hpau, hct] at h1
      simp only [Bool.not_true, Bool.false_eq_true, if_false] at h1
      rw [Option.map_eq_some'] at h1
      obtain ⟨stack', hpush, hs1⟩ := h1
      unfold stackPush32 at hpush
      split at hpush
      · rw [Option.some.injEq] at hpush
        rename_i hlt32
        subst hpush
        set T := s.tracks.getD 0 ({} : EventTrack) with hT
        set fd := T.getFrameData s.frameIndex with hfd
        have ht0 : ∀ X : EventTrack, (s.tracks.set 0 X).getD 0 ({} : EventTrack) = X := by
          intro X
          rw [List.getD_eq_getElem?_getD, List.getElem?_set_self hlen]
          rfl
        have hdep : ((fd.length :: T.eventStack).length - 1) % 2 ^ 8 = T.eventStack.length := by
          simp only [List.length_cons, Nat.add_sub_cancel]
          exact Nat.mod_eq_of_lt (by omega)
        have hA : (s1.tracks.getD 0 ({} : EventTrack)).getFrameData s1.frameIndex =
            fd ++ [{ pName := name, pFilePath := "", depth := T.eventStack.length,
                     lineNumber := 0 % 2 ^ 18, threadIndex := T.index % 2 ^ 10,
                     ticksBegin := now }] := by
          rw [← hs1, ht0, getFrameData_setFrameData _ _ _ (by simpa using helen)]
          rw [hdep]
        have hB : (s1.tracks.getD 0 ({} : EventTrack)).eventStack =
            fd.length :: T.eventStack := by
          rw [← hs1, ht0]
          rfl
        have hClen : (s1.tracks.getD 0 ({} : EventTrack)).events.length =
            T.events.length := by
          rw [← hs1, ht0]
          simp [EventTrack.setFrameData]
        have hinv1 : C1Inv s1 := by
          refine ⟨by rw [← hs1]; exact hini, by rw [← hs1]; exact hpau,
            by rw [← hs1]; exact hct, by rw [← hs1]; simpa using hlen,
            by rw [hClen]; exact helen, ?_⟩
          intro i hi
          rw [hB, List.mem_cons] at hi
          rw [hA]
          simp only [List.length_append, List.length_cons, List.length_nil]
          rcases hi with hi | hi
          · omega
          · have := hbound i hi
            omega
        have hmap := ih s1 s' hinv1 h2
        rw [hmap, hA, hB]
        simp only [List.map_append, List.map_cons, List.map_nil, List.length_cons,
          cpuSpecDepths, List.append_assoc, List.singleton_append, List.cons_append,
          List.nil_append]
      · exact absurd hpush (by simp)
    | endE now =>
      unfold runCpuOp cpuEndEvent getThreadTrack at h1
      rw [hini, hpau, hct] at h1
      simp only [Bool.not_true, Bool.false_eq_true, if_false] at h1
      set T := s.tracks.getD 0 ({} : EventTrack) with hT
      set fd := T.getFrameData s.frameIndex with hfd
      have ht0 : ∀ X : EventTrack, (s.tracks.set 0 X).getD 0 ({} : EventTrack) = X := by
        intro X
        rw [List.getD_eq_getElem?_getD, List.getElem?_set_self hlen]
        rfl
      cases hstk : T.eventStack with
      | nil =>
        rw [hstk] at h1
        simp at h1
      | cons i0 restS =>
        rw [hstk] at h1
        dsimp only at h1
        have hib : i0 < fd.length := hbound i0 (by rw [hstk]; exact List.mem_cons_self _ _)
        rw [if_pos hib, Option.some.injEq] at h1
        have hA : (s1.tracks.getD 0 ({} : EventTrack)).getFrameData s1.frameIndex =
            fd.modify (fun (e : ProfilerEvent) => { e with ticksEnd := now }) i0 := by
          rw [← h1, ht0, getFrameData_setFrameData _ _ _ (by simpa using helen)]
        have hB : (s1.tracks.getD 0 ({} : EventTrack)).eventStack = restS := by
          rw [← h1, ht0]
          rfl
        have hClen : (s1.tracks.getD 0 ({} : EventTrack)).events.length =
            T.events.length := by
          rw [← h1, ht0]
          simp [EventTrack.setFrameData]
        have hinv1 : C1Inv s1 := by
          refine ⟨by rw [← h1]; exact hini, by rw [← h1]; exact hpau,
            by rw [← h1]; exact hct, by rw [← h1]; simpa using hlen,
            by rw [hClen]; exact helen, ?_⟩
          intro i hi
          rw [hB] at hi
          rw [hA, List.length_modify]
          exact hbound i (by rw [hstk]; exact List.mem_cons_of_mem _ hi)
        have hmap := ih s1 s' hinv1 h2
        rw [hmap, hA, hB, map_depth_modify]
        rw [show cpuSpecDepths (i0 :: restS).length (CpuOp.endE now :: rest) =
            cpuSpecDepths ((i0 :: restS).length - 1) rest from rfl]
        simp only [List.length_cons, Nat.add_sub_cancel]


/-- `C1`: for every sequence of Begin/End calls on the single modelled
thread (profiler initialized, not paused) that the recorder completes
without hitting an assert (in particular every well-nested sequence of
bounded depth), the `Depth` recorded in each event of the frame's buffer —
in recording order — equals that event's nesting level (number of enclosing
still-open regions) at its `BeginEvent` call. -/
theorem c1_depth_equals_nesting (H : Nat) (hH : 0 < H) (ops : List CpuOp)
    (s' : CPUState) (hrun : runCpuOps ops (c1Start H) = some s') :
    ((s'.tracks.getD 0 {}).getFrameData s'.frameIndex).map (fun e => e.depth) =
      cpuSpecDepths 0 ops := by
  have hinv : C1Inv (c1Start H) := by
    unfold c1Start registerCurrentThread cpuInit registerTrack C1Inv
    refine ⟨rfl, rfl, rfl, by simp, by simpa using hH, by simp⟩
  have hmap := c1_run ops (c1Start H) s' hinv hrun
  rw [hmap]
  have h0 : ((c1Start H).tracks.getD 0 ({} : EventTrack)).getFrameData
      (c1Start H).frameIndex = [] := by
    unfold c1Start registerCurrentThread cpuInit registerTrack
    simp [EventTrack.getFrameData, List.getElem?_replicate, Nat.mod_lt, hH]
  have h1 : ((c1Start H).tracks.getD 0 ({} : EventTrack)).eventStack = [] := by
    unfold c1Start registerCurrentThread cpuInit registerTrack
    simp
  rw [h0, h1]
  rfl

/-- Concrete op sequence for the `C1` witness: two nested regions. -/
def c1Ops : List CpuOp :=
  [.beginE 1 "outer", .beginE 2 "inner", .endE 3, .endE 4]

/-- Witness for `c1_depth_equals_nesting` on `c1Ops` (depths `[0, 1]`). -/
theorem c1_depth_equals_nesting_witness :
    (runCpuOps c1Ops (c1Start 2)).map
        (fun s' => ((s'.tracks.getD 0 {}).getFrameData s'.frameIndex).map
          (fun e => e.depth)) =
      some (cpuSpecDepths 0 c1Ops) := by
  cases h : runCpuOps c1Ops (c1Start 2) with
  | none => exact absurd h (by decide)
  | some s' =>
    simpa using c1_depth_equals_nesting 2 (by decide) c1Ops s' h


/-- Event indices that the replay of `markers` will stamp with the queue
index when pushed (recorded Begin markers that were not dropped). -/
def beginIdxs (ms : List GPUQuery) : List Nat :=
  ms.filterMap fun m =>
    if m.eventIndex ≠ EndEventFlag ∧ m.eventIndex ≠ InvalidEventFlag then
      some m.eventIndex
    else none

/-- Event indices carried by entries already on the active-event stack. -/
def stackIdxs (stack : List GPUQuery) : List Nat :=
  stack.filterMap fun b =>
    if b.eventIndex ≠ InvalidEventFlag then some b.eventIndex else none

/-- What the submission-order stack simulation assigns to one popped event:
its depth (the stack size right after the pop) and its begin/end query
slots. -/
structure GPUSpecRes where
  depth : Nat
  qBegin : Nat
  qEnd : Nat
deriving Repr, DecidableEq

/-- Reference stack simulation of `ExecuteCommandLists`' marker replay: a
Begin marker pushes, an End marker pops its Begin and appends the popped
event's assignment to `acc`; an End on an empty stack is the fatal
violation (`none`). -/
def gpuSpecReplay (stack : List GPUQuery) (ms : List GPUQuery)
    (acc : List (Nat × GPUSpecRes)) : Option (List (Nat × GPUSpecRes)) :=
  match ms with
  | [] => some acc
  | m :: rest =>
    if m.eventIndex ≠ EndEventFlag then gpuSpecReplay (m :: stack) rest acc
    else
      match stack with
      | [] => none
      | b :: stack' =>
        if b.eventIndex = InvalidEventFlag then gpuSpecReplay stack' rest acc
        else
          gpuSpecReplay stack' rest
            (acc ++ [(b.eventIndex, ⟨stack'.length, b.queryIndex, m.queryIndex⟩)])

lemma gpuSpecReplay_begin {m : GPUQuery} (hm : m.eventIndex ≠ EndEventFlag)
    (stack rest : List GPUQuery) (acc : List (Nat × GPUSpecRes)) :
    gpuSpecReplay stack (m :: rest) acc = gpuSpecReplay (m :: stack) rest acc := by
  conv_lhs => unfold gpuSpecReplay
  rw [if_pos hm]

lemma gpuSpecReplay_end_nil {m : GPUQuery} (hm : m.eventIndex = EndEventFlag)
    (rest : List GPUQuery) (acc : List (Nat × GPUSpecRes)) :
    gpuSpecReplay [] (m :: rest) acc = none := by
  conv_lhs => unfold gpuSpecReplay
  rw [if_neg (by simp [hm])]

lemma gpuSpecReplay_end_invalid {m b : GPUQuery} (hm : m.eventIndex = EndEventFlag)
    (hb : b.eventIndex = InvalidEventFlag) (stack' rest : List GPUQuery)
    (acc : List (Nat × GPUSpecRes)) :
    gpuSpecReplay (b :: stack') (m :: rest) acc = gpuSpecReplay stack' rest acc := by
  conv_lhs => unfold gpuSpecReplay
  rw [if_neg (by simp [hm])]
  dsimp only
  rw [if_pos hb]

lemma gpuSpecReplay_end_pop {m b : GPUQuery} (hm : m.eventIndex = EndEventFlag)
    (hb : b.eventIndex ≠ InvalidEventFlag) (stack' rest : List GPUQuery)
    (acc : List (Nat × GPUSpecRes)) :
    gpuSpecReplay (b :: stack') (m :: rest) acc =
      gpuSpecReplay stack' rest
        (acc ++ [(b.eventIndex, ⟨stack'.length, b.queryIndex, m.queryIndex⟩)]) := by
  conv_lhs => unfold gpuSpecReplay
  rw [if_neg (by simp [hm])]
  dsimp only
  rw [if_neg hb]

lemma gpuSpecReplay_acc (ms : List GPUQuery) : ∀ (stack : List GPUQuery)
    (acc : List (Nat × GPUSpecRes)),
    gpuSpecReplay stack ms acc =
      (gpuSpecReplay stack ms []).map (fun l => acc ++ l) := by
  induction ms with
  | nil =>
    intro stack acc
    simp [gpuSpecReplay]
  | cons m rest ih =>
    intro stack acc
    by_cases hm : m.eventIndex = EndEventFlag
    · cases stack with
      | nil => rw [gpuSpecReplay_end_nil hm, gpuSpecReplay_end_nil hm]; rfl
      | cons b stack' =>
        by_cases hb : b.eventIndex = InvalidEventFlag
        · rw [gpuSpecReplay_end_invalid hm hb, gpuSpecReplay_end_invalid hm hb]
          exact ih _ acc
        · rw [gpuSpecReplay_end_pop hm hb, gpuSpecReplay_end_pop hm hb]
          conv_rhs => rw [ih]
          rw [ih]
          cases gpuSpecReplay stack' rest [] <;> simp
    · rw [gpuSpecReplay_begin hm, gpuSpecReplay_begin hm]
      exact ih _ acc

lemma execQueryStep_begin_overflow {m : GPUQuery} (q : Nat)
    (hm : m.eventIndex ≠ EndEventFlag) (stack : List GPUQuery) (qd : QueryData)
    (hfull : ¬stack.length + 1 < 32) :
    execQueryStep q (stack, qd) m = none := by
  unfold execQueryStep stackPush32
  rw [if_pos hm, if_neg hfull]

lemma execQueryStep_begin_invalid {m : GPUQuery} (q : Nat)
    (hm : m.eventIndex = InvalidEventFlag) (stack : List GPUQuery) (qd : QueryData)
    (hok : stack.length + 1 < 32) :
    execQueryStep q (stack, qd) m = some (m :: stack, qd) := by
  unfold execQueryStep stackPush32
  rw [if_pos (by simp [hm, EndEventFlag, InvalidEventFlag]), if_pos hok]
  dsimp only
  rw [if_pos hm]

lemma execQueryStep_begin_valid {m : GPUQuery} (q : Nat)
    (hm : m.eventIndex ≠ EndEventFlag) (hmi : m.eventIndex ≠ InvalidEventFlag)
    (stack : List GPUQuery) (qd : QueryData) (hok : stack.length + 1 < 32) :
    execQueryStep q (stack, qd) m =
      some (m :: stack,
        { qd with
          events := List.modify
            (fun (e : ProfilerEvent) => { e with queueIndex := q % 2 ^ 4 })
            m.eventIndex qd.events }) := by
  unfold execQueryStep stackPush32
  rw [if_pos hm, if_pos hok]
  dsimp only
  rw [if_neg hmi]

lemma execQueryStep_end_nil {m : GPUQuery} (q : Nat)
    (hm : m.eventIndex = EndEventFlag) (qd : QueryData) :
    execQueryStep q (([] : List GPUQuery), qd) m = none := by
  unfold execQueryStep
  rw [if_neg (by simp [hm])]

lemma execQueryStep_end_invalid {m b : GPUQuery} (q : Nat)
    (hm : m.eventIndex = EndEventFlag) (hb : b.eventIndex = InvalidEventFlag)
    (stack' : List GPUQuery) (qd : QueryData) :
    execQueryStep q (b :: stack', qd) m = some (stack', qd) := by
  unfold execQueryStep
  rw [if_neg (by simp [hm])]
  dsimp only
  rw [if_pos hb]

lemma execQueryStep_end_pop {m b : GPUQuery} (q : Nat)
    (hm : m.eventIndex = EndEventFlag) (hb : b.eventIndex ≠ InvalidEventFlag)
    (stack' : List GPUQuery) (qd : QueryData) :
    execQueryStep q (b :: stack', qd) m =
      (let qd2 : QueryData :=
        { qd with
          pairs := List.modify
            (fun _ => { queryIndexBegin := b.queryIndex, queryIndexEnd := m.queryIndex })
            b.eventIndex qd.pairs
          events := List.modify
            (fun (e : ProfilerEvent) => { e with depth := stack'.length % 2 ^ 8 })
            b.eventIndex qd.events }
       if (qd2.events.getD b.eventIndex {}).queueIndex = q then some (stack', qd2)
       else none) := by
  unfold execQueryStep
  rw [if_neg (by simp [hm])]
  dsimp only
  rw [if_neg hb]


lemma beginIdxs_cons (m : GPUQuery) (rest : List GPUQuery) :
    beginIdxs (m :: rest) =
      if m.eventIndex ≠ EndEventFlag ∧ m.eventIndex ≠ InvalidEventFlag then
        m.eventIndex :: beginIdxs rest
      else beginIdxs rest := by
  by_cases hcond : m.eventIndex ≠ EndEventFlag ∧ m.eventIndex ≠ InvalidEventFlag
  · rw [if_pos hcond]
    exact List.filterMap_cons_some (by rw [if_pos hcond])
  · rw [if_neg hcond]
    exact List.filterMap_cons_none (by rw [if_neg hcond])

lemma stackIdxs_cons (b : GPUQuery) (s : List GPUQuery) :
    stackIdxs (b :: s) =
      if b.eventIndex ≠ InvalidEventFlag then b.eventIndex :: stackIdxs s
      else stackIdxs s := by
  by_cases hcond : b.eventIndex ≠ InvalidEventFlag
  · rw [if_pos hcond]
    exact List.filterMap_cons_some (by rw [if_pos hcond])
  · rw [if_neg hcond]
    exact List.filterMap_cons_none (by rw [if_neg hcond])

lemma foldlM_exec_cons (q : Nat) (m : GPUQuery) (rest : List GPUQuery)
    (st : List GPUQuery × QueryData) :
    (m :: rest).foldlM (execQueryStep q) st =
      (execQueryStep q st m).bind (fun st' => rest.foldlM (execQueryStep q) st') := by
  rw [List.foldlM_cons]
  rfl

-- Replay never touches query-pair / event slots whose indices appear in
-- neither the remaining markers nor the current stack.
lemma exec_untouched (q : Nat) (ms : List GPUQuery) :
    ∀ (stack : List GPUQuery) (qd : QueryData) (stackF : List GPUQuery)
      (qdF : QueryData),
    ms.foldlM (execQueryStep q) (stack, qd) = some (stackF, qdF) →
    ∀ e, e ∉ beginIdxs ms → e ∉ stackIdxs stack →
      qdF.pairs[e]? = qd.pairs[e]? ∧ qdF.events[e]? = qd.events[e]? := by
  induction ms with
  | nil =>
    intro stack qd stackF qdF h e h1 h2
    simp only [List.foldlM_nil, pure, Option.some.injEq, Prod.mk.injEq] at h
    obtain ⟨-, h4⟩ := h
    subst h4
    exact ⟨rfl, rfl⟩
  | cons m rest ih =>
    intro stack qd stackF qdF h e h1 h2
    rw [foldlM_exec_cons, Option.bind_eq_some] at h
    obtain ⟨⟨stack1, qd1⟩, hstep, hrest⟩ := h
    by_cases hm : m.eventIndex = EndEventFlag
    · have h1' : e ∉ beginIdxs rest := by
        rw [beginIdxs_cons] at h1
        split at h1
        · rename_i hcond
          exact absurd hm hcond.1
        · exact h1
      cases stack with
      | nil =>
        rw [execQueryStep_end_nil q hm] at hstep
        exact absurd hstep (by simp)
      | cons b stack' =>
        by_cases hb : b.eventIndex = InvalidEventFlag
        · rw [execQueryStep_end_invalid q hm hb] at hstep
          rw [Option.some.injEq, Prod.mk.injEq] at hstep
          obtain ⟨he1, he2⟩ := hstep
          subst he1
          subst he2
          refine ih _ _ _ _ hrest e h1' ?_
          rw [stackIdxs_cons, if_neg (by simpa using hb)] at h2
          exact h2
        · rw [execQueryStep_end_pop q hm hb] at hstep
          dsimp only at hstep
          split at hstep
          · rw [Option.some.injEq, Prod.mk.injEq] at hstep
            obtain ⟨he1, he2⟩ := hstep
            subst he1
            subst he2
            rw [stackIdxs_cons, if_pos hb, List.mem_cons] at h2
            push_neg at h2
            obtain ⟨hne, h2'⟩ := h2
            have := ih _ _ _ _ hrest e h1' h2'
            rw [this.1, this.2]
            constructor
            · exact List.getElem?_modify_ne _ _ (fun hh => hne hh.symm)
            · exact List.getElem?_modify_ne _ _ (fun hh => hne hh.symm)
          · exact absurd hstep (by simp)
    · by_cases hok : stack.length + 1 < 32
      · by_cases hmi : m.eventIndex = InvalidEventFlag
        · rw [execQueryStep_begin_invalid q hmi stack qd hok] at hstep
          rw [Option.some.injEq, Prod.mk.injEq] at hstep
          obtain ⟨he1, he2⟩ := hstep
          subst he1
          subst he2
          refine ih _ _ _ _ hrest e ?_ ?_
          · rw [beginIdxs_cons, if_neg (by simp [hmi])] at h1
            exact h1
          · rw [stackIdxs_cons, if_neg (by simpa using hmi)]
            exact h2
        · rw [execQueryStep_begin_valid q hm hmi stack qd hok] at hstep
          rw [Option.some.injEq, Prod.mk.injEq] at hstep
          obtain ⟨he1, he2⟩ := hstep
          subst he1
          subst he2
          rw [beginIdxs_cons, if_pos ⟨hm, hmi⟩, List.mem_cons] at h1
          push_neg at h1
          obtain ⟨hne, h1'⟩ := h1
          have h2' : e ∉ stackIdxs (m :: stack) := by
            rw [stackIdxs_cons, if_pos hmi, List.mem_cons]
            push_neg
            exact ⟨hne, h2⟩
          have := ih _ _ _ _ hrest e h1' h2'
          rw [this.1, this.2]
          exact ⟨rfl, List.getElem?_modify_ne _ _ (fun hh => hne hh.symm)⟩
      · rw [execQueryStep_begin_overflow q hm stack qd hok] at hstep
        exact absurd hstep (by simp)


-- The marker replay of `ExecuteCommandLists` against one queue's
-- active-event stack realizes the reference stack simulation.
lemma exec_spec (q : Nat) (hq16 : q < 16) (ms : List GPUQuery) :
    ∀ (stack : List GPUQuery) (qd : QueryData),
    stack.length ≤ 31 →
    (beginIdxs ms ++ stackIdxs stack).Nodup →
    (∀ e ∈ beginIdxs ms ++ stackIdxs stack, e < qd.events.length ∧ e < qd.pairs.length) →
    (∀ m ∈ ms, m.queryIndex ≠ 0xFFFF) →
    (∀ b ∈ stack, b.queryIndex ≠ 0xFFFF) →
    (∀ b ∈ stack, b.eventIndex ≠ InvalidEventFlag →
      (qd.events[b.eventIndex]?.getD {}).queueIndex = q) →
    ((gpuSpecReplay stack ms [] = none →
        ms.foldlM (execQueryStep q) (stack, qd) = none) ∧
      (∀ accF, gpuSpecReplay stack ms [] = some accF →
        ∀ stackF qdF, ms.foldlM (execQueryStep q) (stack, qd) = some (stackF, qdF) →
        ∀ e r, (e, r) ∈ accF →
          qdF.pairs[e]? = some ⟨r.qBegin, r.qEnd⟩ ∧
          QueryPair.isValid ⟨r.qBegin, r.qEnd⟩ = true ∧
          (qdF.events[e]?.getD {}).depth = r.depth ∧
          (qdF.events[e]?.getD {}).queueIndex = q)) := by
  induction ms with
  | nil =>
    intro stack qd _ _ _ _ _ _
    constructor
    · intro habs
      exact absurd habs (by simp [gpuSpecReplay])
    · intro accF hspec stackF qdF hfold e r hmem
      unfold gpuSpecReplay at hspec
      rw [Option.some.injEq] at hspec
      subst hspec
      simp at hmem
  | cons m rest ih =>
    intro stack qd hlen hnd hbound hqms hqstack hbegun
    by_cases hm : m.eventIndex = EndEventFlag
    · cases stack with
      | nil =>
        constructor
        · intro _
          rw [foldlM_exec_cons, execQueryStep_end_nil q hm]
          rfl
        · intro accF hspec stackF qdF hfold e r hmem
          rw [gpuSpecReplay_end_nil hm] at hspec
          exact absurd hspec (by simp)
      | cons b stack' =>
        have hlen' : stack'.length ≤ 31 := by
          simp only [List.length_cons] at hlen
          omega
        rw [beginIdxs_cons, if_neg (by simp [hm])] at hnd hbound
        by_cases hb : b.eventIndex = InvalidEventFlag
        · rw [stackIdxs_cons, if_neg (by simpa using hb)] at hnd hbound
          have IH := ih stack' qd hlen' hnd hbound
            (fun x hx => hqms x (List.mem_cons_of_mem _ hx))
            (fun x hx => hqstack x (List.mem_cons_of_mem _ hx))
            (fun x hx => hbegun x (List.mem_cons_of_mem _ hx))
          constructor
          · intro hspec
            rw [gpuSpecReplay_end_invalid hm hb] at hspec
            rw [foldlM_exec_cons, execQueryStep_end_invalid q hm hb, Option.some_bind]
            exact IH.1 hspec
          · intro accF hspec stackF qdF hfold e r hmem
            rw [gpuSpecReplay_end_invalid hm hb] at hspec
            rw [foldlM_exec_cons, execQueryStep_end_invalid q hm hb,
              Option.some_bind] at hfold
            exact IH.2 accF hspec stackF qdF hfold e r hmem
        · -- pop of a recorded Begin
          rw [stackIdxs_cons, if_pos hb] at hnd hbound
          have hbev : b.eventIndex ∈ beginIdxs rest ++ b.eventIndex :: stackIdxs stack' :=
            List.mem_append_right _ (List.mem_cons_self _ _)
          have hbevB := hbound _ hbev
          obtain ⟨hbevE, hbevP⟩ := hbevB
          have hndP := (List.nodup_append.mp hnd)
          obtain ⟨hnd1, hnd2, hdisj⟩ := hndP
          have hnd2' := (List.nodup_cons.mp hnd2)
          obtain ⟨hbnotS, hnd2''⟩ := hnd2'
          have hbnotB : b.eventIndex ∉ beginIdxs rest := by
            intro hin
            exact hdisj hin (List.mem_cons_self _ _)
          have hnd' : (beginIdxs rest ++ stackIdxs stack').Nodup := by
            rw [List.nodup_append]
            exact ⟨hnd1, hnd2'', fun a ha hmem' => hdisj ha (List.mem_cons_of_mem _ hmem')⟩
          -- the event data after the pop writes
          have hev0 : ∃ ev0, qd.events[b.eventIndex]? = some ev0 ∧ ev0.queueIndex = q := by
            have h1 := List.getElem?_eq_getElem hbevE
            refine ⟨qd.events[b.eventIndex], h1, ?_⟩
            have := hbegun b (List.mem_cons_self _ _) hb
            rw [h1] at this
            exact this
          obtain ⟨ev0, hev0g, hev0q⟩ := hev0
          have hp0 : ∃ p0, qd.pairs[b.eventIndex]? = some p0 :=
            ⟨qd.pairs[b.eventIndex], List.getElem?_eq_getElem hbevP⟩
          obtain ⟨p0, hp0g⟩ := hp0
          -- the guard of the queue-consistency assert holds
          have hguard :
              ((List.modify
                  (fun (e : ProfilerEvent) => { e with depth := stack'.length % 2 ^ 8 })
                  b.eventIndex qd.events).getD b.eventIndex {}).queueIndex = q := by
            rw [List.getD_eq_getElem?_getD, List.getElem?_modify_eq, hev0g]
            simpa using hev0q
          have hstepeq : execQueryStep q (b :: stack', qd) m =
              some (stack',
                { qd with
                  pairs := List.modify
                    (fun _ => { queryIndexBegin := b.queryIndex,
                                queryIndexEnd := m.queryIndex })
                    b.eventIndex qd.pairs
                  events := List.modify
                    (fun (e : ProfilerEvent) => { e with depth := stack'.length % 2 ^ 8 })
                    b.eventIndex qd.events }) := by
            rw [execQueryStep_end_pop q hm hb]
            dsimp only
            rw [if_pos hguard]
          -- hypotheses for the tail, on the written query data
          have hbound' : ∀ e ∈ beginIdxs rest ++ stackIdxs stack',
              e < (List.modify
                  (fun (e : ProfilerEvent) => { e with depth := stack'.length % 2 ^ 8 })
                  b.eventIndex qd.events).length ∧
              e < (List.modify
                  (fun _ => ({ queryIndexBegin := b.queryIndex,
                               queryIndexEnd := m.queryIndex } : QueryPair))
                  b.eventIndex qd.pairs).length := by
            intro x hx
            rw [List.length_modify, List.length_modify]
            refine hbound x ?_
            rcases List.mem_append.mp hx with hx | hx
            · exact List.mem_append_left _ hx
            · exact List.mem_append_right _ (List.mem_cons_of_mem _ hx)
          have hbegun' : ∀ b' ∈ stack', b'.eventIndex ≠ InvalidEventFlag →
              (((List.modify
                  (fun (e : ProfilerEvent) => { e with depth := stack'.length % 2 ^ 8 })
                  b.eventIndex qd.events))[b'.eventIndex]?.getD {}).queueIndex = q := by
            intro b' hb' hb'v
            have hneb : b.eventIndex ≠ b'.eventIndex := by
              intro hcontra
              refine hbnotS ?_
              rw [hcontra]
              unfold stackIdxs
              exact List.mem_filterMap.mpr ⟨b', hb', by rw [if_pos hb'v]⟩
            rw [List.getElem?_modify_ne _ _ hneb]
            exact hbegun b' (List.mem_cons_of_mem _ hb') hb'v
          have IH := ih stack'
            ({ qd with
               pairs := List.modify
                 (fun _ => { queryIndexBegin := b.queryIndex,
                             queryIndexEnd := m.queryIndex })
                 b.eventIndex qd.pairs
               events := List.modify
                 (fun (e : ProfilerEvent) => { e with depth := stack'.length % 2 ^ 8 })
                 b.eventIndex qd.events })
            hlen' hnd' hbound'
            (fun x hx => hqms x (List.mem_cons_of_mem _ hx))
            (fun x hx => hqstack x (List.mem_cons_of_mem _ hx))
            hbegun'
          constructor
          · intro hspec
            rw [gpuSpecReplay_end_pop hm hb, gpuSpecReplay_acc] at hspec
            rw [Option.map_eq_none'] at hspec
            rw [foldlM_exec_cons, hstepeq, Option.some_bind]
            exact IH.1 hspec
          · intro accF hspec stackF qdF hfold e r hmem
            rw [gpuSpecReplay_end_pop hm hb, gpuSpecReplay_acc] at hspec
            rw [foldlM_exec_cons, hstepeq, Option.some_bind] at hfold
            rw [Option.map_eq_some'] at hspec
            obtain ⟨accF', hspec', haccF⟩ := hspec
            subst haccF
            rw [List.nil_append, List.singleton_append, List.mem_cons] at hmem
            rcases hmem with hmem | hmem
            · -- the event popped at this step
              rw [Prod.mk.injEq] at hmem
              obtain ⟨he, hr⟩ := hmem
              subst he
              subst hr
              have huntouched := exec_untouched q rest stack' _ stackF qdF hfold
                b.eventIndex hbnotB hbnotS
              refine ⟨?_, ?_, ?_, ?_⟩
              · rw [huntouched.1]
                dsimp only
                rw [List.getElem?_modify_eq, hp0g]
                rfl
              · have h1 := hqstack b (List.mem_cons_self _ _)
                have h2 := hqms m (List.mem_cons_self _ _)
                simp [QueryPair.isValid, h1, h2]
              · rw [huntouched.2]
                dsimp only
                rw [List.getElem?_modify_eq, hev0g]
                simp only [Option.map_some, Option.getD_some]
                exact Nat.mod_eq_of_lt (by omega)
              · rw [huntouched.2]
                dsimp only
                rw [List.getElem?_modify_eq, hev0g]
                simpa using hev0q
            · exact IH.2 accF' hspec' stackF qdF hfold e r hmem
    · -- Begin marker
      by_cases hok : stack.length + 1 < 32
      · have hlen'' : (m :: stack).length ≤ 31 := by
          simp only [List.length_cons]
          omega
        by_cases hmi : m.eventIndex = InvalidEventFlag
        · rw [beginIdxs_cons, if_neg (by simp [hmi])] at hnd hbound
          have hstk : stackIdxs (m :: stack) = stackIdxs stack := by
            rw [stackIdxs_cons, if_neg (by simpa using hmi)]
          have IH := ih (m :: stack) qd hlen'' (by rw [hstk]; exact hnd)
            (by rw [hstk]; exact hbound)
            (fun x hx => hqms x (List.mem_cons_of_mem _ hx))
            (fun x hx => by
              rcases List.mem_cons.mp hx with hx | hx
              · subst hx; exact hqms _ (List.mem_cons_self _ _)
              · exact hqstack x hx)
            (fun x hx hxv => by
              rcases List.mem_cons.mp hx with hx | hx
              · subst hx; exact absurd hmi hxv
              · exact hbegun x hx hxv)
          constructor
          · intro hspec
            rw [gpuSpecReplay_begin hm] at hspec
            rw [foldlM_exec_cons, execQueryStep_begin_invalid q hmi stack qd hok,
              Option.some_bind]
            exact IH.1 hspec
          · intro accF hspec stackF qdF hfold e r hmem
            rw [gpuSpecReplay_begin hm] at hspec
            rw [foldlM_exec_cons, execQueryStep_begin_invalid q hmi stack qd hok,
              Option.some_bind] at hfold
            exact IH.2 accF hspec stackF qdF hfold e r hmem
        · -- valid Begin: the queue index is stamped
          rw [beginIdxs_cons, if_pos ⟨hm, hmi⟩] at hnd hbound
          have hmev : m.eventIndex ∈ m.eventIndex :: beginIdxs rest ++ stackIdxs stack :=
            List.mem_append_left _ (List.mem_cons_self _ _)
          obtain ⟨hmevE, hmevP⟩ := hbound _ hmev
          have hperm : (beginIdxs rest ++ m.eventIndex :: stackIdxs stack).Nodup := by
            refine (List.perm_middle.nodup_iff).mpr ?_
            rw [← List.cons_append]
            exact hnd
          have hndc : (m.eventIndex :: (beginIdxs rest ++ stackIdxs stack)).Nodup := by
            rw [← List.cons_append]
            exact hnd
          have hmnotS : m.eventIndex ∉ stackIdxs stack := by
            have := (List.nodup_cons.mp hndc).1
            intro hin
            exact this (List.mem_append_right _ hin)
          have hstk : stackIdxs (m :: stack) = m.eventIndex :: stackIdxs stack := by
            rw [stackIdxs_cons, if_pos hmi]
          have hbound' : ∀ e ∈ beginIdxs rest ++ stackIdxs (m :: stack),
              e < (List.modify
                  (fun (e : ProfilerEvent) => { e with queueIndex := q % 2 ^ 4 })
                  m.eventIndex qd.events).length ∧
              e < qd.pairs.length := by
            intro x hx
            rw [List.length_modify]
            refine hbound x ?_
            rw [hstk] at hx
            rcases List.mem_append.mp hx with hx | hx
            · exact List.mem_append_left _ (List.mem_cons_of_mem _ hx)
            · rcases List.mem_cons.mp hx with hx | hx
              · subst hx; exact List.mem_append_left _ (List.mem_cons_self _ _)
              · exact List.mem_append_right _ hx
          have hbegun' : ∀ b' ∈ m :: stack, b'.eventIndex ≠ InvalidEventFlag →
              ((List.modify
                  (fun (e : ProfilerEvent) => { e with queueIndex := q % 2 ^ 4 })
                  m.eventIndex qd.events)[b'.eventIndex]?.getD {}).queueIndex = q := by
            intro b' hb' hb'v
            rcases List.mem_cons.mp hb' with hb' | hb'
            · subst hb'
              rw [List.getElem?_modify_eq, List.getElem?_eq_getElem hmevE]
              simp only [Option.map_some, Option.getD_some]
              exact Nat.mod_eq_of_lt (lt_of_lt_of_le hq16 (by norm_num))
            · have hneb : m.eventIndex ≠ b'.eventIndex := by
                intro hcontra
                refine hmnotS ?_
                rw [hcontra]
                unfold stackIdxs
                exact List.mem_filterMap.mpr ⟨b', hb', by rw [if_pos hb'v]⟩
              rw [List.getElem?_modify_ne _ _ hneb]
              exact hbegun b' hb' hb'v
          have IH := ih (m :: stack)
            ({ qd with
               events := List.modify
                 (fun (e : ProfilerEvent) => { e with queueIndex := q % 2 ^ 4 })
                 m.eventIndex qd.events })
            hlen'' (by rw [hstk]; exact hperm) hbound'
            (fun x hx => hqms x (List.mem_cons_of_mem _ hx))
            (fun x hx => by
              rcases List.mem_cons.mp hx with hx | hx
              · subst hx; exact hqms _ (List.mem_cons_self _ _)
              · exact hqstack x hx)
            hbegun'
          constructor
          · intro hspec
            rw [gpuSpecReplay_begin hm] at hspec
            rw [foldlM_exec_cons, execQueryStep_begin_valid q hm hmi stack qd hok,
              Option.some_bind]
            exact IH.1 hspec
          · intro accF hspec stackF qdF hfold e r hmem
            rw [gpuSpecReplay_begin hm] at hspec
            rw [foldlM_exec_cons, execQueryStep_begin_valid q hm hmi stack qd hok,
              Option.some_bind] at hfold
            exact IH.2 accF hspec stackF qdF hfold e r hmem
      · constructor
        · intro _
          rw [foldlM_exec_cons, execQueryStep_begin_overflow q hm stack qd hok]
          rfl
        · intro accF hspec stackF qdF hfold e r hmem
          rw [foldlM_exec_cons, execQueryStep_begin_overflow q hm stack qd hok] at hfold
          exact absurd hfold (by simp)


lemma getQueryData_setAt (t : GPUState) (qd : QueryData)
    (hslot : t.frameIndex % t.frameLatency < t.queryData.length) :
    (t.setQueryDataAt t.frameIndex qd).getQueryData = qd := by
  unfold GPUState.setQueryDataAt GPUState.getQueryData
  simp only [List.length_set]
  rw [List.getD_eq_getElem?_getD, List.getElem?_set_self hslot]
  rfl

/-- `C2`: when a command buffer's recorded markers `ms` are replayed at
submission (`ExecuteCommandLists`) against the owning queue's (initially
empty) active-event stack, the outcome matches the reference stack
simulation `gpuSpecReplay`: if some End marker finds an empty stack
(mismatched Begin/End counts in the batch) the call takes the fatal
assert path; otherwise, for every event the simulation pairs, the stored
query pair is exactly its begin/end slots and is valid, its recorded depth
is the simulated stack depth at its pop, and its queue index is the
submitting queue's. -/
theorem c2_submission_replay (s : GPUState) (queueId cid : Nat) (ms : List GPUQuery)
    (hinit : s.isInitialized = true) (hpause : s.isPaused = false)
    (hq : queueId < s.queues.length) (hq16 : queueId < 16)
    (hstack : s.queueEventStack.getD queueId [] = [])
    (hmap : s.cmdListMap = [(cid, ms)])
    (hslot : s.frameIndex % s.frameLatency < s.queryData.length)
    (hnd : (beginIdxs ms).Nodup)
    (hbound : ∀ e ∈ beginIdxs ms,
      e < s.getQueryData.events.length ∧ e < s.getQueryData.pairs.length)
    (hqms : ∀ m ∈ ms, m.queryIndex ≠ 0xFFFF) :
    (gpuSpecReplay [] ms [] = none → executeCommandLists queueId [cid] s = none) ∧
    (∀ accF, gpuSpecReplay [] ms [] = some accF →
      ∀ s', executeCommandLists queueId [cid] s = some s' →
        ∀ e r, (e, r) ∈ accF →
          s'.getQueryData.pairs[e]? = some ⟨r.qBegin, r.qEnd⟩ ∧
          QueryPair.isValid ⟨r.qBegin, r.qEnd⟩ = true ∧
          (s'.getQueryData.events[e]?.getD {}).depth = r.depth ∧
          (s'.getQueryData.events[e]?.getD {}).queueIndex = queueId) := by
  have hfind : s.cmdListMap.find? (fun e => e.1 = cid) = some (cid, ms) := by
    rw [hmap]
    exact List.find?_cons_of_pos _ (by simp)
  have hspec := exec_spec queueId hq16 ms []
    { s.getQueryData with numEvents := s.eventIndex }
    (by simp)
    (by simpa [stackIdxs] using hnd)
    (by intro e he; simp only [stackIdxs, List.filterMap_nil, List.append_nil] at he; exact hbound e he)
    hqms
    (fun b hb => absurd hb (List.not_mem_nil _))
    (fun b hb => absurd hb (List.not_mem_nil _))
  have hcmdloop : execCmdLoop queueId [cid] []
      { s.getQueryData with numEvents := s.eventIndex } s.cmdListMap =
      (ms.foldlM (execQueryStep queueId)
        ([], { s.getQueryData with numEvents := s.eventIndex })).bind fun acc =>
          some (acc.1, acc.2,
            s.cmdListMap.map fun e => if e.1 = cid then (cid, []) else e) := by
    unfold execCmdLoop
    rw [hfind]
    rfl
  have hexecEq : executeCommandLists queueId [cid] s =
      ((ms.foldlM (execQueryStep queueId)
          ([], { s.getQueryData with numEvents := s.eventIndex })).bind fun acc =>
            some (acc.1, acc.2,
              s.cmdListMap.map fun e => if e.1 = cid then (cid, []) else e)).map
        fun acc =>
          GPUState.setQueryDataAt
            { s with
              queueEventStack := s.queueEventStack.set queueId acc.1
              cmdListMap := acc.2.2 }
            s.frameIndex acc.2.1 := by
    unfold executeCommandLists
    rw [hinit, hpause]
    simp only [Bool.not_true, Bool.false_eq_true, if_false]
    rw [if_pos hq, hstack, hcmdloop]
  constructor
  · intro hnone
    rw [hexecEq, hspec.1 hnone]
    rfl
  · intro accF hspecF s' hexec e r hmem
    rw [hexecEq] at hexec
    cases hfold : ms.foldlM (execQueryStep queueId)
        ([], { s.getQueryData with numEvents := s.eventIndex }) with
    | none => rw [hfold] at hexec; exact absurd hexec (by simp)
    | some accP =>
      rw [hfold] at hexec
      simp only [Option.some_bind, Option.map_some', Option.some.injEq] at hexec
      have hs'qd : s'.getQueryData = accP.2 := by
        rw [← hexec]
        exact getQueryData_setAt _ _ (by simpa using hslot)
      have := hspec.2 accF hspecF accP.1 accP.2 (by rw [← hfold]) e r hmem
      rw [hs'qd]
      exact this


/-- Markers of the `C2` witness: two properly nested Begin/End pairs
(event 0 spans event 1). -/
def c2Markers : List GPUQuery :=
  [⟨0, 0⟩, ⟨1, 1⟩, ⟨2, EndEventFlag⟩, ⟨3, EndEventFlag⟩]

/-- Concrete GPU state for the `C2` witness: one queue, one tracked command
buffer holding `c2Markers`. -/
def c2State : GPUState :=
  { isInitialized := true
    isPaused := false
    eventIndex := 2
    frameLatency := 1
    frameIndex := 0
    queryData := [{ pairs := List.replicate 4 {}, events := List.replicate 4 {}, numEvents := 0 }]
    heap0 := { initialized := true, maxNumQueries := 8, frameLatency := 1 }
    queueEventStack := [[]]
    queues := [{ gpuFrequency := 1 }]
    cmdListMap := [(7, c2Markers)] }

/-- Witness for `c2_submission_replay` on `c2State`. -/
theorem c2_submission_replay_witness :
    (gpuSpecReplay [] c2Markers [] = none → executeCommandLists 0 [7] c2State = none) ∧
    (∀ accF, gpuSpecReplay [] c2Markers [] = some accF →
      ∀ s', executeCommandLists 0 [7] c2State = some s' →
        ∀ e r, (e, r) ∈ accF →
          s'.getQueryData.pairs[e]? = some ⟨r.qBegin, r.qEnd⟩ ∧
          QueryPair.isValid ⟨r.qBegin, r.qEnd⟩ = true ∧
          (s'.getQueryData.events[e]?.getD {}).depth = r.depth ∧
          (s'.getQueryData.events[e]?.getD {}).queueIndex = 0) :=
  c2_submission_replay c2State 0 7 c2Markers rfl rfl (by decide) (by decide) (by decide)
    rfl (by decide) (by decide) (by decide) (by decide)

end TLP
